import Mathlib

/-!
Verification development for the `london-cinema-listings` repository.

The Python sources are shallowly embedded: Python `str` values are modelled
as `List Char` (`Str`), `datetime.datetime` as the `PyDateTime` structure
below (with the `Europe/London` tzdata rules implemented explicitly), the
`Screening` dataclass as a Lean structure, and the pure parsing /
normalization / aggregation / query functions of the repository as Lean
functions.  Network and DOM I/O boundaries are modelled by passing the data
those calls would produce as explicit arguments.
-/

namespace Cinema

/-- Python `str` is modelled as a list of unicode scalar values. -/
abbrev Str := List Char

/-- Lexicographic `<=` on strings by code point, as Python string comparison
(`key=lambda x: x['start_time']` in the aggregator sorts with this order). -/
def strLe : Str → Str → Bool
  | [], _ => true
  | _ :: _, [] => false
  | a :: as, b :: bs =>
    if a.toNat < b.toNat then true
    else if b.toNat < a.toNat then false
    else strLe as bs

/-- Python `str.lower` restricted to ASCII (the characters the scrapers compare). -/
def asciiLower (c : Char) : Char :=
  if 65 ≤ c.toNat ∧ c.toNat ≤ 90 then Char.ofNat (c.toNat + 32) else c

/-- Lower-case a whole string, as `str.lower()` does on ASCII text. -/
def strLower (s : Str) : Str := s.map asciiLower

/-- Python whitespace characters stripped by `str.strip()` (ASCII subset). -/
def isPySpace (c : Char) : Bool :=
  c = ' ' ∨ c = '\t' ∨ c = '\n' ∨ c = '\r' ∨ c = Char.ofNat 11 ∨ c = Char.ofNat 12

/-- Python `str.strip()`: remove leading and trailing whitespace. -/
def pyStrip (s : Str) : Str :=
  ((s.dropWhile isPySpace).reverse.dropWhile isPySpace).reverse

/-- Does `pat` occur as a substring of `s`?  Models Python's `pat in s`. -/
def strContains (s pat : Str) : Bool :=
  match s with
  | [] => pat.isEmpty
  | _ :: rest => pat.isPrefixOf s || strContains rest pat

/-- Python `s.find(pat)`: index of the first occurrence of `pat`, as an
`Option` (`none` models the `-1` return). -/
def strFind : Str → Str → Option Nat
  | s, pat =>
    match s with
    | [] => if pat.isEmpty then some 0 else none
    | _ :: rest =>
      if pat.isPrefixOf s then some 0
      else (strFind rest pat).map (· + 1)

/-- Python `s.find(c, start)` for a single character: index of the first
occurrence of `c` at position `start` or later. -/
def strFindCharFrom (s : Str) (c : Char) (start : Nat) : Option Nat :=
  match strFind (s.drop start) [c] with
  | none => none
  | some i => some (start + i)

/-- The decimal digit character for `n % 10`. -/
def digitChar (n : Nat) : Char := Char.ofNat (48 + n % 10)

/-- Render `n` as two decimal digits (`%02d`), as `datetime.isoformat` does
for months, days, hours, minutes and seconds. -/
def two (n : Nat) : Str := [digitChar (n / 10), digitChar n]

/-- Render `n` as four decimal digits (`%04d`), as `datetime.isoformat` does
for the year. -/
def four (n : Nat) : Str := [digitChar (n / 1000), digitChar (n / 100), digitChar (n / 10), digitChar n]

/-! ## Europe/London timezone rules

`zoneinfo.ZoneInfo("Europe/London")` follows the tzdata EU rule for the
years this system handles: BST (UTC+1) from the last Sunday of March,
01:00 UTC, to the last Sunday of October, 01:00 UTC; GMT (UTC+0)
otherwise. -/

/-- Gregorian leap year test. -/
def isLeap (y : Nat) : Bool := y % 4 = 0 ∧ (y % 100 ≠ 0 ∨ y % 400 = 0)

/-- Days in a month of the Gregorian calendar. -/
def daysInMonth (y m : Nat) : Nat :=
  if m = 2 then (if isLeap y then 29 else 28)
  else if m = 4 ∨ m = 6 ∨ m = 9 ∨ m = 11 then 30
  else 31

/-- Days since 1970-01-01 of a civil date (Howard Hinnant's algorithm). -/
def daysFromCivil (y m d : Int) : Int :=
  let y' := if m ≤ 2 then y - 1 else y
  let era := y'.fdiv 400
  let yoe := y' - era * 400
  let mp := (m + 9) % 12
  let doy := (153 * mp + 2).fdiv 5 + d - 1
  let doe := yoe * 365 + yoe.fdiv 4 - yoe.fdiv 100 + doy
  era * 146097 + doe - 719468

/-- Civil date from days since 1970-01-01 (inverse of `daysFromCivil`). -/
def civilFromDays (z : Int) : Int × Int × Int :=
  let z' := z + 719468
  let era := z'.fdiv 146097
  let doe := z' - era * 146097
  let yoe := (doe - doe.fdiv 1460 + doe.fdiv 36524 - doe.fdiv 146096).fdiv 365
  let y := yoe + era * 400
  let doy := doe - (365 * yoe + yoe.fdiv 4 - yoe.fdiv 100)
  let mp := (5 * doy + 2).fdiv 153
  let d := doy - (153 * mp + 2).fdiv 5 + 1
  let m := if mp < 10 then mp + 3 else mp - 9
  (if m ≤ 2 then y + 1 else y, m, d)

/-- Day of week of a civil date, `0` = Sunday. -/
def dayOfWeek (y m d : Nat) : Nat :=
  ((daysFromCivil y m d + 4).emod 7).toNat

/-- Day of month of the last Sunday of month `m` in year `y`. -/
def lastSunday (y m : Nat) : Nat :=
  let last := daysInMonth y m
  last - dayOfWeek y m last

/-- A sortable key for (month, day, hour, minute) within one year. -/
def wallKey (m d h mi : Nat) : Nat := ((m * 100 + d) * 100 + h) * 100 + mi

/-- Is a naive London wall-clock time in BST?  Implements the `fold=0`
disambiguation `zoneinfo` applies when a naive datetime is given the
London zone (`datetime.replace(tzinfo=LONDON_TZ)`): during the duplicated
autumn hour the pre-transition offset (BST) is reported, and during the
skipped spring hour the pre-transition offset (GMT) is reported. -/
def londonWallBST (y m d h mi : Nat) : Bool :=
  wallKey 3 (lastSunday y 3) 2 0 ≤ wallKey m d h mi ∧
  wallKey m d h mi < wallKey 10 (lastSunday y 10) 2 0

/-- Is a UTC instant (given by its civil UTC fields) in the BST period? -/
def londonUTCBST (y m d h mi : Nat) : Bool :=
  wallKey 3 (lastSunday y 3) 1 0 ≤ wallKey m d h mi ∧
  wallKey m d h mi < wallKey 10 (lastSunday y 10) 1 0

/-- The UTC offset, in minutes, that `ZoneInfo("Europe/London")` reports for
a naive wall-clock time attached with `fold=0`. -/
def londonWallOffset (y m d h mi : Nat) : Int :=
  if londonWallBST y m d h mi then 60 else 0

/-! ## datetime model -/

/-- Which `tzinfo` object an aware datetime carries: the `Europe/London`
zone, or a fixed-offset `timezone` (as produced by `datetime.fromisoformat`
on an offset-suffixed string). -/
inductive TzKind
  | london
  | fixedOffset
deriving DecidableEq, Repr

/-- An attached `tzinfo` together with its resolved `utcoffset()` in
minutes (for `london` the offset is resolved at construction following the
rules above, which is what `isoformat` prints). -/
structure TzInfo where
  kind : TzKind
  offsetMinutes : Int
deriving DecidableEq, Repr

/-- Python `datetime.datetime` (seconds resolution; the scrapers never
produce sub-second times).  `tz = none` is a naive datetime. -/
structure PyDateTime where
  year : Nat
  month : Nat
  day : Nat
  hour : Nat
  minute : Nat
  second : Nat := 0
  tz : Option TzInfo := none
deriving DecidableEq, Repr

/-- Minutes since the epoch of the civil fields, ignoring the timezone. -/
def PyDateTime.civilMinutes (dt : PyDateTime) : Int :=
  daysFromCivil dt.year dt.month dt.day * 1440 + dt.hour * 60 + dt.minute

/-- The UTC instant of an aware datetime, in minutes since the epoch
(seconds field carried separately by callers; offsets are whole minutes). -/
def PyDateTime.instantMinutes (dt : PyDateTime) : Int :=
  dt.civilMinutes - (match dt.tz with | none => 0 | some t => t.offsetMinutes)

/-- Build a `PyDateTime` from an epoch-minute count, seconds and tz. -/
def dtOfMinutes (total : Int) (sec : Nat) (tz : Option TzInfo) : PyDateTime :=
  let days := total.fdiv 1440
  let rem := (total.emod 1440).toNat
  let c := civilFromDays days
  { year := c.1.toNat, month := c.2.1.toNat, day := c.2.2.toNat
    hour := rem / 60, minute := rem % 60, second := sec, tz := tz }

/-- `base.to_london`: naive datetimes get the London zone attached
(`replace(tzinfo=LONDON_TZ)`, interpreting the fields as London wall
time); aware datetimes are converted with `astimezone(LONDON_TZ)`. -/
def to_london (dt : PyDateTime) : PyDateTime :=
  match dt.tz with
  | none =>
    { dt with tz := some ⟨.london, londonWallOffset dt.year dt.month dt.day dt.hour dt.minute⟩ }
  | some t =>
    let utc := dt.civilMinutes - t.offsetMinutes
    let udays := utc.fdiv 1440
    let urem := (utc.emod 1440).toNat
    let uc := civilFromDays udays
    let off : Int :=
      if londonUTCBST uc.1.toNat uc.2.1.toNat uc.2.2.toNat (urem / 60) (urem % 60) then 60 else 0
    dtOfMinutes (utc + off) dt.second (some ⟨.london, off⟩)

/-- The `YYYY-MM-DD` date part of `datetime.isoformat()`. -/
def isoDate (dt : PyDateTime) : Str :=
  four dt.year ++ '-' :: two dt.month ++ '-' :: two dt.day

/-- The `HH:MM:SS` time part of `datetime.isoformat()`. -/
def isoTime (dt : PyDateTime) : Str :=
  two dt.hour ++ ':' :: two dt.minute ++ ':' :: two dt.second

/-- The `+HH:MM` / `-HH:MM` offset suffix of `isoformat()`; empty for
a naive datetime. -/
def isoOffset : Option TzInfo → Str
  | none => []
  | some t =>
    (if t.offsetMinutes < 0 then '-' else '+') ::
      two (t.offsetMinutes.natAbs / 60) ++ ':' :: two (t.offsetMinutes.natAbs % 60)

/-- `datetime.isoformat()` at seconds resolution. -/
def isoformat (dt : PyDateTime) : Str :=
  isoDate dt ++ 'T' :: isoTime dt ++ isoOffset dt.tz

/-- The date component of a datetime rendered as `YYYY-MM-DD` (the string a
date filter is compared against). -/
def dateStrOf (dt : PyDateTime) : Str := isoDate dt

/-- Naive `datetime` comparison (`dt > cutoff` in the scrapers): field-wise
lexicographic order on the civil fields. -/
def naiveLt (a b : PyDateTime) : Bool :=
  a.civilMinutes * 60 + a.second < b.civilMinutes * 60 + b.second

/-- `datetime + timedelta(minutes=n)` (also used for `days`): shifts the
civil fields; for a London-aware datetime the offset is re-resolved from
the new wall clock, as `zoneinfo` does lazily. -/
def addMinutes (dt : PyDateTime) (n : Int) : PyDateTime :=
  let base := dtOfMinutes (dt.civilMinutes + n) dt.second none
  match dt.tz with
  | none => base
  | some t =>
    match t.kind with
    | .fixedOffset => { base with tz := some t }
    | .london =>
      { base with
        tz := some ⟨.london, londonWallOffset base.year base.month base.day base.hour base.minute⟩ }

/-! ## MD5 (`hashlib.md5`) and the derived screening id -/

/-- UTF-8 encoding of one unicode scalar (`str.encode()`). -/
def utf8Char (c : Char) : List Nat :=
  let n := c.toNat
  if n < 0x80 then [n]
  else if n < 0x800 then [0xC0 ||| (n >>> 6), 0x80 ||| (n &&& 0x3F)]
  else if n < 0x10000 then
    [0xE0 ||| (n >>> 12), 0x80 ||| ((n >>> 6) &&& 0x3F), 0x80 ||| (n &&& 0x3F)]
  else
    [0xF0 ||| (n >>> 18), 0x80 ||| ((n >>> 12) &&& 0x3F),
     0x80 ||| ((n >>> 6) &&& 0x3F), 0x80 ||| (n &&& 0x3F)]

/-- UTF-8 encoding of a string, as a list of byte values. -/
def utf8Encode (s : Str) : List Nat := s.flatMap utf8Char

/-- The MD5 sine-derived constant table `K` (RFC 1321). -/
def md5K : List Nat :=
  [0xd76aa478, 0xe8c7b756, 0x242070db, 0xc1bdceee, 0xf57c0faf, 0x4787c62a, 0xa8304613, 0xfd469501,
   0x698098d8, 0x8b44f7af, 0xffff5bb1, 0x895cd7be, 0x6b901122, 0xfd987193, 0xa679438e, 0x49b40821,
   0xf61e2562, 0xc040b340, 0x265e5a51, 0xe9b6c7aa, 0xd62f105d, 0x02441453, 0xd8a1e681, 0xe7d3fbc8,
   0x21e1cde6, 0xc33707d6, 0xf4d50d87, 0x455a14ed, 0xa9e3e905, 0xfcefa3f8, 0x676f02d9, 0x8d2a4c8a,
   0xfffa3942, 0x8771f681, 0x6d9d6122, 0xfde5380c, 0xa4beea44, 0x4bdecfa9, 0xf6bb4b60, 0xbebfbc70,
   0x289b7ec6, 0xeaa127fa, 0xd4ef3085, 0x04881d05, 0xd9d4d039, 0xe6db99e5, 0x1fa27cf8, 0xc4ac5665,
   0xf4292244, 0x432aff97, 0xab9423a7, 0xfc93a039, 0x655b59c3, 0x8f0ccc92, 0xffeff47d, 0x85845dd1,
   0x6fa87e4f, 0xfe2ce6e0, 0xa3014314, 0x4e0811a1, 0xf7537e82, 0xbd3af235, 0x2ad7d2bb, 0xeb86d391]

/-- The MD5 per-round left-rotation amounts (RFC 1321). -/
def md5S : List Nat :=
  [7, 12, 17, 22, 7, 12, 17, 22, 7, 12, 17, 22, 7, 12, 17, 22,
   5, 9, 14, 20, 5, 9, 14, 20, 5, 9, 14, 20, 5, 9, 14, 20,
   4, 11, 16, 23, 4, 11, 16, 23, 4, 11, 16, 23, 4, 11, 16, 23,
   6, 10, 15, 21, 6, 10, 15, 21, 6, 10, 15, 21, 6, 10, 15, 21]

/-- 32-bit left rotation. -/
def rotl32 (x c : Nat) : Nat :=
  ((x <<< c) ||| (x >>> (32 - c))) % 2 ^ 32

/-- 32-bit complement. -/
def not32 (x : Nat) : Nat := x ^^^ 0xFFFFFFFF

/-- Accumulator loop for `chunksOf`: `cur` holds the current chunk in
reverse. -/
def chunksOfAux (n : Nat) (cur : List Nat) : List Nat → List (List Nat)
  | [] => if cur.isEmpty then [] else [cur.reverse]
  | x :: xs =>
    if cur.length + 1 = n then (x :: cur).reverse :: chunksOfAux n [] xs
    else chunksOfAux n (x :: cur) xs

/-- Split a list into chunks of `n` (for the 64-byte MD5 blocks); the
callers always pass lists whose length is a multiple of `n`. -/
def chunksOf (n : Nat) (l : List Nat) : List (List Nat) := chunksOfAux n [] l

/-- Little-endian bytes of `x` (width `w` bytes). -/
def leBytes (w x : Nat) : List Nat :=
  (List.range w).map fun i => (x >>> (8 * i)) % 256

/-- Read a little-endian 32-bit word out of a byte list at offset `i`. -/
def leWord (bytes : List Nat) (i : Nat) : Nat :=
  bytes.getD (4 * i) 0 + (bytes.getD (4 * i + 1) 0 <<< 8) +
    (bytes.getD (4 * i + 2) 0 <<< 16) + (bytes.getD (4 * i + 3) 0 <<< 24)

/-- MD5 padding: append `0x80`, zero-fill to 56 mod 64, then the original
bit length as a little-endian 64-bit quantity. -/
def md5Pad (msg : List Nat) : List Nat :=
  let bitLen := 8 * msg.length
  let padLen := (55 + 64 - msg.length % 64) % 64 + 1
  msg ++ 0x80 :: List.replicate (padLen - 1) 0 ++ leBytes 8 (bitLen % 2 ^ 64)

/-- One MD5 round: from round index `i`, block words `M` and state
`(A, B, C, D)` to the next state. -/
def md5Round (M : List Nat) (st : Nat × Nat × Nat × Nat) (i : Nat) : Nat × Nat × Nat × Nat :=
  let (A, B, C, D) := st
  let (F, g) :=
    if i < 16 then ((B &&& C) ||| (not32 B &&& D), i)
    else if i < 32 then ((D &&& B) ||| (not32 D &&& C), (5 * i + 1) % 16)
    else if i < 48 then (B ^^^ C ^^^ D, (3 * i + 5) % 16)
    else (C ^^^ (B ||| not32 D), (7 * i) % 16)
  let F' := (F + A + md5K.getD i 0 + M.getD g 0) % 2 ^ 32
  (D, (B + rotl32 F' (md5S.getD i 0)) % 2 ^ 32, B, C)

/-- Process one 64-byte block into the running state. -/
def md5Block (st : Nat × Nat × Nat × Nat) (block : List Nat) : Nat × Nat × Nat × Nat :=
  let M := (List.range 16).map (leWord block)
  let (a, b, c, d) := (List.range 64).foldl (md5Round M) st
  let (a0, b0, c0, d0) := st
  ((a0 + a) % 2 ^ 32, (b0 + b) % 2 ^ 32, (c0 + c) % 2 ^ 32, (d0 + d) % 2 ^ 32)

/-- Hexadecimal digit character (lower case). -/
def hexDigit (n : Nat) : Char :=
  if n % 16 < 10 then digitChar (n % 16) else Char.ofNat (87 + n % 16)

/-- Lower-case hex rendering of a byte list. -/
def bytesToHex (bytes : List Nat) : Str :=
  bytes.flatMap fun b => [hexDigit (b / 16), hexDigit b]

/-- `hashlib.md5(bytes).hexdigest()`. -/
def md5Hex (msg : List Nat) : Str :=
  let init : Nat × Nat × Nat × Nat := (0x67452301, 0xefcdab89, 0x98badcfe, 0x10325476)
  let (a, b, c, d) := (chunksOf 64 (md5Pad msg)).foldl md5Block init
  bytesToHex (leBytes 4 a ++ leBytes 4 b ++ leBytes 4 c ++ leBytes 4 d)

/-! ## The Screening dataclass (`scrapers/base.py`) -/

/-- The `Screening` dataclass: one showing of one film at one venue.
`scraped_at` has no default here; each construction site passes the
`now_london()` capture time explicitly. -/
structure Screening where
  cinema_id : Str
  cinema_name : Str
  film_title : Str
  start_time : PyDateTime
  booking_url : Str
  format : Option Str := none
  screen : Option Str := none
  end_time : Option PyDateTime := none
  notes : Option Str := none
  scraped_at : PyDateTime
deriving DecidableEq, Repr

/-- The f-string key `f"{cinema_id}:{film_title}:{start_time.isoformat()}"`
hashed by `Screening.id`. -/
def screeningKey (s : Screening) : Str :=
  s.cinema_id ++ ':' :: s.film_title ++ ':' :: isoformat s.start_time

/-- `Screening.id`: first 16 hex characters of the MD5 of the key. -/
def Screening.id (s : Screening) : Str :=
  (md5Hex (utf8Encode (screeningKey s))).take 16

/-! ## JSON values and a model of `json.loads` -/

/-- Parsed JSON values.  Numbers are kept exactly as mantissa and decimal
exponent (`json.loads` would build a float / int; no claim inspects the
numeric value).  `nan` and `inf` model the `NaN` / `Infinity` /
`-Infinity` extensions Python's decoder accepts. -/
inductive Json where
  | null
  | bool (b : Bool)
  | num (mant : Int) (exp10 : Int)
  | nan
  | inf (neg : Bool)
  | str (s : Str)
  | arr (elems : List Json)
  | obj (members : List (Str × Json))
deriving Repr

/-- JSON whitespace accepted between tokens. -/
def jsonWs (c : Char) : Bool := c = ' ' ∨ c = '\t' ∨ c = '\n' ∨ c = '\r'

/-- Skip JSON whitespace. -/
def skipWs (s : Str) : Str := s.dropWhile jsonWs

/-- ASCII decimal digit test. -/
def isDigit (c : Char) : Bool := 48 ≤ c.toNat ∧ c.toNat ≤ 57

/-- Read a maximal run of decimal digits; fails on an empty run. -/
def parseDigits (s : Str) : Option (Nat × Str) :=
  let run := s.takeWhile isDigit
  if run.isEmpty then none
  else some (run.foldl (fun acc c => 10 * acc + (c.toNat - 48)) 0, s.dropWhile isDigit)

/-- Hex digit value. -/
def hexVal (c : Char) : Option Nat :=
  if 48 ≤ c.toNat ∧ c.toNat ≤ 57 then some (c.toNat - 48)
  else if 97 ≤ c.toNat ∧ c.toNat ≤ 102 then some (c.toNat - 87)
  else if 65 ≤ c.toNat ∧ c.toNat ≤ 70 then some (c.toNat - 55)
  else none

/-- Read exactly four hex digits (the `XXXX` of a `\uXXXX` escape). -/
def parseHex4 : Str → Option (Nat × Str)
  | a :: b :: c :: d :: rest => do
    let va ← hexVal a
    let vb ← hexVal b
    let vc ← hexVal c
    let vd ← hexVal d
    some (((va * 16 + vb) * 16 + vc) * 16 + vd, rest)
  | _ => none

/-- Decoded character for a single-character string escape (`\"`, `\\`,
`\/`, `\b`, `\f`, `\n`, `\r`, `\t`). -/
def simpleEscape (e : Char) : Option Char :=
  if e = '"' then some '"'
  else if e = '\\' then some '\\'
  else if e = '/' then some '/'
  else if e = 'b' then some (Char.ofNat 8)
  else if e = 'f' then some (Char.ofNat 12)
  else if e = 'n' then some '\n'
  else if e = 'r' then some '\r'
  else if e = 't' then some '\t'
  else none

/-- Body of a JSON string after the opening quote: returns the decoded
characters and the remainder after the closing quote.  Mirrors the strict
decoder: raw control characters are rejected, the standard escapes and
`\uXXXX` (with surrogate-pair combination) are decoded.  Fuel-indexed
(each step consumes at least one character, and callers pass a fuel
exceeding the input length, so genuine inputs never exhaust it). -/
def parseJString : Nat → Str → Option (Str × Str)
  | 0, _ => none
  | _, [] => none
  | _ + 1, '"' :: rest => some ([], rest)
  | fuel + 1, '\\' :: 'u' :: a :: b :: c :: d :: '\\' :: 'u' :: a2 :: b2 :: c2 :: d2 :: rest2 =>
    match hexVal a, hexVal b, hexVal c, hexVal d with
    | some va, some vb, some vc, some vd =>
      let n := ((va * 16 + vb) * 16 + vc) * 16 + vd
      if 0xD800 ≤ n ∧ n < 0xDC00 then
        match hexVal a2, hexVal b2, hexVal c2, hexVal d2 with
        | some va2, some vb2, some vc2, some vd2 =>
          let n2 := ((va2 * 16 + vb2) * 16 + vc2) * 16 + vd2
          if 0xDC00 ≤ n2 ∧ n2 < 0xE000 then
            (parseJString fuel rest2).map fun p =>
              (Char.ofNat (0x10000 + (n - 0xD800) * 0x400 + (n2 - 0xDC00)) :: p.1, p.2)
          else
            (parseJString fuel ('\\' :: 'u' :: a2 :: b2 :: c2 :: d2 :: rest2)).map fun p =>
              (Char.ofNat n :: p.1, p.2)
        | _, _, _, _ =>
          (parseJString fuel ('\\' :: 'u' :: a2 :: b2 :: c2 :: d2 :: rest2)).map fun p =>
            (Char.ofNat n :: p.1, p.2)
      else
        (parseJString fuel ('\\' :: 'u' :: a2 :: b2 :: c2 :: d2 :: rest2)).map fun p =>
          (Char.ofNat n :: p.1, p.2)
    | _, _, _, _ => none
  | fuel + 1, '\\' :: 'u' :: a :: b :: c :: d :: rest =>
    match hexVal a, hexVal b, hexVal c, hexVal d with
    | some va, some vb, some vc, some vd =>
      let n := ((va * 16 + vb) * 16 + vc) * 16 + vd
      (parseJString fuel rest).map fun p => (Char.ofNat n :: p.1, p.2)
    | _, _, _, _ => none
  | fuel + 1, '\\' :: e :: rest =>
    match simpleEscape e with
    | none => none
    | some ch => (parseJString fuel rest).map fun p => (ch :: p.1, p.2)
  | fuel + 1, c :: rest =>
    if c.toNat < 0x20 then none
    else (parseJString fuel rest).map fun p => (c :: p.1, p.2)

/-- JSON number after an optional leading minus has been noted: integer
part (no leading zeros), optional fraction, optional exponent. -/
def parseJNumberBody (neg : Bool) (s : Str) : Option (Json × Str) := do
  let (ip, rest) ← match s with
    | '0' :: r => some ((0 : Nat), r)
    | c :: _ => if isDigit c ∧ c ≠ '0' then parseDigits s else none
    | [] => none
  let (mant1, exp1, rest1) ← match rest with
    | '.' :: r =>
      match parseDigits r with
      | none => none
      | some (fracV, r') =>
        let fracLen := r.length - r'.length
        some ((ip * 10 ^ fracLen + fracV : Nat), -(fracLen : Int), r')
    | _ => some (ip, (0 : Int), rest)
  let (exp2, rest2) ← match rest1 with
    | e :: r =>
      if e = 'e' ∨ e = 'E' then
        match r with
        | '+' :: r' => (parseDigits r').map fun (v, r2) => ((v : Int), r2)
        | '-' :: r' => (parseDigits r').map fun (v, r2) => (-(v : Int), r2)
        | _ => (parseDigits r).map fun (v, r2) => ((v : Int), r2)
      else some ((0 : Int), rest1)
    | [] => some ((0 : Int), rest1)
  let m : Int := if neg then -(mant1 : Int) else (mant1 : Int)
  some (Json.num m (exp1 + exp2), rest2)

mutual

/-- One JSON value, fuel-indexed; consumes leading whitespace and leaves
the remainder.  The fuel at the top-level entry exceeds the input length,
so genuine inputs never exhaust it. -/
def parseJValue : Nat → Str → Option (Json × Str)
  | 0, _ => none
  | fuel + 1, s =>
    match skipWs s with
    | [] => none
    | '"' :: rest => (parseJString (fuel + 1) rest).map fun p => (Json.str p.1, p.2)
    | '[' :: rest =>
      (match skipWs rest with
       | ']' :: r => some (.arr [], r)
       | _ => (parseJElems fuel rest).map fun p => (Json.arr p.1, p.2))
    | '{' :: rest =>
      (match skipWs rest with
       | '}' :: r => some (.obj [], r)
       | _ => (parseJMembers fuel rest).map fun p => (Json.obj p.1, p.2))
    | 't' :: 'r' :: 'u' :: 'e' :: r => some (.bool true, r)
    | 'f' :: 'a' :: 'l' :: 's' :: 'e' :: r => some (.bool false, r)
    | 'n' :: 'u' :: 'l' :: 'l' :: r => some (.null, r)
    | 'N' :: 'a' :: 'N' :: r => some (.nan, r)
    | 'I' :: 'n' :: 'f' :: 'i' :: 'n' :: 'i' :: 't' :: 'y' :: r => some (.inf false, r)
    | '-' :: 'I' :: 'n' :: 'f' :: 'i' :: 'n' :: 'i' :: 't' :: 'y' :: r => some (.inf true, r)
    | '-' :: rest => parseJNumberBody true rest
    | c :: rest => if isDigit c then parseJNumberBody false (c :: rest) else none

/-- The elements of a non-empty JSON array, after the opening bracket. -/
def parseJElems : Nat → Str → Option (List Json × Str)
  | 0, _ => none
  | fuel + 1, s =>
    match parseJValue fuel s with
    | none => none
    | some (v, r) =>
      match skipWs r with
      | ',' :: r' => (parseJElems fuel r').map fun p => (v :: p.1, p.2)
      | ']' :: r' => some ([v], r')
      | _ => none

/-- The members of a non-empty JSON object, after the opening brace. -/
def parseJMembers : Nat → Str → Option (List (Str × Json) × Str)
  | 0, _ => none
  | fuel + 1, s =>
    match skipWs s with
    | '"' :: rest =>
      (match parseJString (fuel + 1) rest with
       | none => none
       | some (k, r) =>
         match skipWs r with
         | ':' :: r' =>
           (match parseJValue fuel r' with
            | none => none
            | some (v, r2) =>
              match skipWs r2 with
              | ',' :: r3 => (parseJMembers fuel r3).map fun p => ((k, v) :: p.1, p.2)
              | '}' :: r3 => some ([(k, v)], r3)
              | _ => none)
         | _ => none)
    | _ => none

end

/-- `json.loads` as an `Option`: parse one value, require only whitespace
after it. -/
def jsonLoads? (s : Str) : Option Json :=
  match parseJValue (2 * s.length + 2) s with
  | some (v, rest) => if (skipWs rest).isEmpty then some v else none
  | none => none

/-! ## Rio: embedded-JSON extraction (`rio.py _extract_events_json`) -/

/-- The depth-scan loop of `_extract_events_json`: walking the characters
from the first brace, `+1` on every opening and `-1` on every closing
brace; returns the number of characters up to and including the brace
that first returns the depth to zero (`end_idx - brace_idx` in the
source), or `none` when the loop ends without that happening. -/
def braceScanLen : Str → Int → Nat → Option Nat
  | [], _, _ => none
  | c :: rest, depth, pos =>
    if c = '{' then braceScanLen rest (depth + 1) (pos + 1)
    else if c = '}' then
      (if depth - 1 = 0 then some (pos + 1) else braceScanLen rest (depth - 1) (pos + 1))
    else braceScanLen rest depth (pos + 1)

/-- `RioScraper._extract_events_json`: locate `var Events`, find the first
opening brace after it, depth-scan to the matching close (an unbalanced
page leaves `end_idx` at `brace_idx`, giving the empty slice), then
`json.loads` the slice, with a decode error returning `None`. -/
def extract_events_json (page_html : Str) : Option Json :=
  match strFind page_html ("var Events".data) with
  | none => none
  | some start_idx =>
    match strFindCharFrom page_html '{' start_idx with
    | none => none
    | some brace_idx =>
      let region := page_html.drop brace_idx
      let json_str :=
        match braceScanLen region 0 0 with
        | some n => region.take n
        | none => []
      jsonLoads? json_str

/-! ## Shared parsing helpers for the scrapers -/

/-- Value of a decimal digit character. -/
def dval (c : Char) : Nat := c.toNat - 48

/-- A 1-or-2-digit `strptime` field: greedily try two digits subject to
`valid2`, else one digit subject to `valid1` (the shape of the regexes
`strptime` compiles for `%H`, `%M`, `%d`, `%m`, `%I`). -/
def parseField2or1 (valid2 valid1 : Nat → Bool) : Str → Option (Nat × Str)
  | a :: b :: rest =>
    if isDigit a ∧ isDigit b ∧ valid2 (10 * dval a + dval b) then
      some (10 * dval a + dval b, rest)
    else if isDigit a ∧ valid1 (dval a) then some (dval a, b :: rest)
    else none
  | [a] => if isDigit a ∧ valid1 (dval a) then some (dval a, []) else none
  | [] => none

/-- The `%Y` field: up to four digits, greedily. -/
def parseYear (s : Str) : Option (Nat × Str) :=
  let run := (s.takeWhile isDigit).take 4
  if run.isEmpty then none
  else some (run.foldl (fun acc c => 10 * acc + dval c) 0, s.drop run.length)

/-- The `%H` hour field. -/
def parseHourF (s : Str) : Option (Nat × Str) :=
  parseField2or1 (fun v => v ≤ 23) (fun _ => true) s

/-- The `%M` minute field. -/
def parseMinF (s : Str) : Option (Nat × Str) :=
  parseField2or1 (fun v => v ≤ 59) (fun _ => true) s

/-- The `%m` month field. -/
def parseMonthF (s : Str) : Option (Nat × Str) :=
  parseField2or1 (fun v => 1 ≤ v ∧ v ≤ 12) (fun v => 1 ≤ v) s

/-- The `%d` day field. -/
def parseDayF (s : Str) : Option (Nat × Str) :=
  parseField2or1 (fun v => 1 ≤ v ∧ v ≤ 31) (fun v => 1 ≤ v) s

/-- The `%I` 12-hour field. -/
def parseHour12F (s : Str) : Option (Nat × Str) :=
  parseField2or1 (fun v => 1 ≤ v ∧ v ≤ 12) (fun v => 1 ≤ v) s

/-- Does the day number exist in the month (the check `datetime.__init__`
performs, raising `ValueError` otherwise)? -/
def validDate (y m d : Nat) : Bool :=
  1 ≤ y ∧ y ≤ 9999 ∧ 1 ≤ m ∧ m ≤ 12 ∧ 1 ≤ d ∧ d ≤ daysInMonth y m

/-- `datetime.strptime(s, "%Y-%m-%d %H%M")` as used by
`RioScraper._parse_event` on `f"{start_date} {start_time}"`, including the
constructor's date validation; `none` models the caught `ValueError`. -/
def strptime_ymd_hm (s : Str) : Option PyDateTime :=
  match parseYear s with
  | none => none
  | some (y, r1) =>
    match r1 with
    | '-' :: r2 =>
      (match parseMonthF r2 with
       | none => none
       | some (m, r3) =>
         match r3 with
         | '-' :: r4 =>
           (match parseDayF r4 with
            | none => none
            | some (d, r5) =>
              match r5 with
              | ' ' :: r6 =>
                (match parseHourF (r6.dropWhile isPySpace) with
                 | none => none
                 | some (h, r7) =>
                   match parseMinF r7 with
                   | none => none
                   | some (mi, r8) =>
                     if r8.isEmpty ∧ validDate y m d then
                       some { year := y, month := m, day := d, hour := h, minute := mi }
                     else none)
              | _ => none)
         | _ => none)
    | _ => none

/-- `'; '.join` / `' '.join` and friends. -/
def joinSep (sep : Str) : List Str → Str
  | [] => []
  | [x] => x
  | x :: xs => x ++ sep ++ joinSep sep xs

/-- Association-list lookup modelling `dict.get` on the modelled keys. -/
def dictGet (pairs : List (Str × Str)) (k : Str) : Option Str :=
  (pairs.find? (fun p => p.1 = k)).map (·.2)

/-- `html.unescape` on the five basic entities (the only ones that occur
in the Rio feed's titles). -/
def html_unescape : Str → Str
  | [] => []
  | '&' :: 'a' :: 'm' :: 'p' :: ';' :: rest => '&' :: html_unescape rest
  | '&' :: 'l' :: 't' :: ';' :: rest => '<' :: html_unescape rest
  | '&' :: 'g' :: 't' :: ';' :: rest => '>' :: html_unescape rest
  | '&' :: 'q' :: 'u' :: 'o' :: 't' :: ';' :: rest => '"' :: html_unescape rest
  | '&' :: '#' :: '3' :: '9' :: ';' :: rest => '\'' :: html_unescape rest
  | c :: rest => c :: html_unescape rest

/-- The certificate alternation `(U|PG|12A|12|15|18|TBC)$` shared by the
Everyman and Garden title-cleanup substitutions. -/
def certAlts : List Str :=
  ["U".data, "PG".data, "12A".data, "12".data, "15".data, "18".data, "TBC".data]

/-- `re.sub(r'(ALT1|...|ALTn)$', '', s)`: delete from the leftmost
position whose entire remaining suffix equals one of the alternatives. -/
def subAltsEnd (alts : List Str) : Str → Str
  | [] => []
  | c :: rest => if (c :: rest) ∈ alts then [] else c :: subAltsEnd alts rest

/-- An anchored `(\d{1,2})SEP(\d{2})` match at the head of the string
(`re.match` in the Everyman scraper, and the per-position attempt of
`re.search` in the Garden scraper). -/
def timeMatchAt (seps : List Char) (l : Str) : Option (Nat × Nat) :=
  match l with
  | a :: b :: s :: m1 :: m2 :: _ =>
    if isDigit a ∧ isDigit b ∧ s ∈ seps ∧ isDigit m1 ∧ isDigit m2 then
      some (10 * dval a + dval b, 10 * dval m1 + dval m2)
    else if isDigit a ∧ b ∈ seps ∧ isDigit s ∧ isDigit m1 then
      some (dval a, 10 * dval s + dval m1)
    else none
  | a :: b :: s :: m1 :: [] =>
    if isDigit a ∧ b ∈ seps ∧ isDigit s ∧ isDigit m1 then
      some (dval a, 10 * dval s + dval m1)
    else none
  | _ => none

/-- `re.search` for the same pattern: try each position left to right. -/
def timeSearch (seps : List Char) : Str → Option (Nat × Nat)
  | [] => none
  | c :: rest =>
    match timeMatchAt seps (c :: rest) with
    | some r => some r
    | none => timeSearch seps rest

/-- `re.search(r'(\d+mm)', s, re.I)`: the leftmost digit run immediately
followed by `mm` (case-insensitive); returns the matched text. -/
def find_mm_format : Str → Option Str
  | [] => none
  | c :: rest =>
    if isDigit c then
      let run := (c :: rest).takeWhile isDigit
      match (c :: rest).dropWhile isDigit with
      | m1 :: m2 :: _ =>
        if asciiLower m1 = 'm' ∧ asciiLower m2 = 'm' then some (run ++ [m1, m2])
        else find_mm_format rest
      | _ => find_mm_format rest
    else find_mm_format rest

/-! ## Rio (`rio.py _parse_event` and `_extract_notes`) -/

/-- The dictionary fields of one performance object that
`RioScraper._parse_event` and `_extract_notes` read.  `none` models an
absent key; `flags` carries the `QA`/`HoH`/… markers. -/
structure RioPerf where
  isOpenForSale : Option Bool := none
  startDate : Option Str := none
  startTime : Option Str := none
  url : Option Str := none
  flags : List (Str × Str) := []
  notes : Option Str := none
  auditoriumName : Option Str := none
deriving DecidableEq, Repr

/-- The dictionary fields of one event object that `_parse_event` reads. -/
structure RioEvent where
  title : Option Str := none
  url : Option Str := none
  performances : List RioPerf := []
deriving DecidableEq, Repr

/-- `RioScraper.FLAG_MAP`, in insertion order. -/
def RIO_FLAG_MAP : List (Str × Str) :=
  [("QA".data, "Q&A after".data), ("HoH".data, "Hard of Hearing".data),
   ("RS".data, "Relaxed Screening".data), ("CB".data, "Carers & Babies".data),
   ("SP".data, "Special Performance".data), ("PP".data, "Preview".data),
   ("FF".data, "Family Friendly".data), ("NoAds".data, "No Ads".data)]

/-- `RioScraper._extract_notes`: labels of flags whose value is `'Y'`, in
`FLAG_MAP` order, then any explicit non-empty `Notes`, joined by `'; '`;
`None` when nothing was collected. -/
def rio_extract_notes (perf : RioPerf) : Option Str :=
  let flagNotes := RIO_FLAG_MAP.filterMap fun p =>
    if dictGet perf.flags p.1 = some ("Y".data) then some p.2 else none
  let allNotes := flagNotes ++
    (match perf.notes with
     | some n => if n.isEmpty then [] else [n]
     | none => [])
  if allNotes.isEmpty then none else some (joinSep ("; ".data) allNotes)

/-- The Rio base URL (`RioScraper.BASE_URL`). -/
def RIO_BASE_URL : Str := "https://riocinema.org.uk".data

/-- `RioScraper._parse_event`: one event's performances to `Screening`s.
`cutoff` is the `datetime.now() + timedelta(days=days_ahead)` value from
`scrape`, `scraped_at` the `now_london()` capture time of the dataclass
default.  Note that the parsed naive `dt` is stored as `start_time`
without any timezone normalization. -/
def rio_parse_event (event : RioEvent) (cutoff scraped_at : PyDateTime) : List Screening :=
  let film_title := html_unescape (event.title.getD [])
  let film_url := event.url.getD []
  event.performances.filterMap fun perf =>
    if ¬ perf.isOpenForSale.getD true then none
    else
      match perf.startDate, perf.startTime with
      | some sd, some st =>
        if sd.isEmpty ∨ st.isEmpty then none
        else
          match strptime_ymd_hm (sd ++ ' ' :: st) with
          | none => none
          | some dt =>
            if naiveLt cutoff dt then none
            else
              let perf_url := perf.url.getD []
              let booking_url :=
                if ¬ perf_url.isEmpty then RIO_BASE_URL ++ "/Rio.dll/".data ++ perf_url
                else film_url
              let screen :=
                match perf.auditoriumName with
                | some a => if a.isEmpty then none else some a
                | none => none
              some { cinema_id := "rio".data, cinema_name := "Rio Cinema".data
                     film_title := film_title, start_time := dt
                     booking_url := booking_url, screen := screen
                     notes := rio_extract_notes perf, scraped_at := scraped_at }
      | _, _ => none

/-! ## Everyman (`everyman.py _extract_showtimes`, `_clean_title`)

The Playwright DOM extraction is an I/O boundary; its result (the list of
`{title, times: [{time, url}]}` records produced by `page.evaluate`) is
passed in as data. -/

/-- One `{time, url}` record from the Everyman DOM extraction. -/
structure EmTime where
  time : Str := []
  url : Str := []
deriving DecidableEq, Repr

/-- One `{title, times}` record from the Everyman DOM extraction. -/
structure EmItem where
  title : Str := []
  times : List EmTime := []
deriving DecidableEq, Repr

/-- `EverymanScraper.VENUE_URL`. -/
def EVERYMAN_VENUE_URL : Str :=
  "https://www.everymancinema.com/venues-list/x11nt-everyman-broadgate/".data

/-- `EverymanScraper._clean_title`: strip a trailing certificate code. -/
def em_clean_title (t : Str) : Str :=
  if t.isEmpty then [] else pyStrip (subAltsEnd certAlts t)

/-- `EverymanScraper._extract_showtimes` after the DOM evaluation: parse
each time as `re.match(r'(\d{1,2}):(\d{2})')`, build a naive
`datetime.combine(date, time(hour, minute))` start (no timezone is ever
attached), and fall back to the venue URL for an empty booking link.  The
bounds check models the `ValueError` of `time.replace` swallowed by the
bare `except`. -/
def em_extract_showtimes (data : List EmItem) (date : Nat × Nat × Nat)
    (scraped_at : PyDateTime) : List Screening :=
  data.flatMap fun item =>
    let film_title := em_clean_title item.title
    if film_title.isEmpty then []
    else
      item.times.filterMap fun ti =>
        match timeMatchAt [':'] ti.time with
        | none => none
        | some (hour, minute) =>
          if hour ≤ 23 ∧ minute ≤ 59 then
            some { cinema_id := "everyman-broadgate".data
                   cinema_name := "Everyman Broadgate".data
                   film_title := film_title
                   start_time := { year := date.1, month := date.2.1, day := date.2.2
                                   hour := hour, minute := minute }
                   booking_url := if ti.url.isEmpty then EVERYMAN_VENUE_URL else ti.url
                   scraped_at := scraped_at }
          else none

/-! ## Garden Cinema (`garden.py _parse_film_block`) -/

/-- One booking link inside the screening-times division: its stripped
text, its `href` (the `find_all` filter guarantees it mentions
`TcsPerformance`), and whether its enclosing panel carries the
`audio_description` class. -/
structure GardenTimeLink where
  text : Str := []
  href : Str := []
  audioDescription : Bool := false
deriving DecidableEq, Repr

/-- The parts of one film block that `_parse_film_block` reads; `none`
models an absent element. -/
structure GardenFilmBlock where
  title : Option Str := none
  stats : Option Str := none
  seasonLink : Option Str := none
  timeLinks : Option (List GardenTimeLink) := none
deriving DecidableEq, Repr

/-- The second Garden title substitution:
`re.sub(r'-\s*(Family Screening|Members Only|Q&A).*$', '', t, flags=re.I)`. -/
def gardenDashSub : Str → Str
  | [] => []
  | c :: rest =>
    if c = '-' ∧
        (["family screening".data, "members only".data, "q&a".data].any fun k =>
          k.isPrefixOf (strLower (rest.dropWhile isPySpace))) then []
    else c :: gardenDashSub rest

/-- `GardenScraper._parse_film_block`.  `screening_date` is the
`(year, month, day)` of the enclosing date block; `scraped_at` the
`now_london()` capture time.  Times route through `to_london`; the
booking URL is the raw `href` with no fallback. -/
def garden_parse_film_block (block : GardenFilmBlock) (screening_date : Nat × Nat × Nat)
    (scraped_at : PyDateTime) : List Screening :=
  match block.title with
  | none => []
  | some raw_title =>
    let t1 := pyStrip (subAltsEnd certAlts raw_title)
    let film_title := pyStrip (gardenDashSub t1)
    if film_title.isEmpty then []
    else
      let notes0 : Option Str :=
        match block.stats with
        | some statsText => find_mm_format statsText
        | none => none
      let notes1 : Option Str :=
        match block.seasonLink with
        | some seasonText =>
          if strContains seasonText ("Family".data) then
            match notes0 with
            | none => some ("Family Screening".data)
            | some n => some (n ++ "; Family Screening".data)
          else notes0
        | none => notes0
      match block.timeLinks with
      | none => []
      | some links =>
        links.filterMap fun link =>
          if strContains (strLower link.text) ("sold out".data) then none
          else
            match timeSearch [':', '.'] link.text with
            | none => none
            | some (hour, minute) =>
              if hour ≤ 23 ∧ minute ≤ 59 then
                let start_time := to_london
                  { year := screening_date.1, month := screening_date.2.1
                    day := screening_date.2.2, hour := hour, minute := minute }
                let screening_notes : Option Str :=
                  if link.audioDescription then
                    match notes1 with
                    | none => some ("Audio Description".data)
                    | some n => some (n ++ "; Audio Description".data)
                  else notes1
                some { cinema_id := "garden-cinema".data
                       cinema_name := "The Garden Cinema".data
                       film_title := film_title, start_time := start_time
                       booking_url := link.href, notes := screening_notes
                       scraped_at := scraped_at }
              else none

/-! ## Prince Charles Cinema (`prince_charles.py _parse_performances`) -/

/-- The booking button inside a performance list item: the text of its
`span.time` child (if any) and its `href`. -/
structure PccBtn where
  time : Option Str := none
  href : Str := []
deriving DecidableEq, Repr

/-- One `li` of the performance list: its booking button, its class list
and the texts of its `movietag` spans. -/
structure PccLi where
  bookBtn : Option PccBtn := none
  classes : List Str := []
  movietags : List Str := []
deriving DecidableEq, Repr

/-- The sequence of elements `_parse_performances` walks: date headings
and performance list items. -/
inductive PccElem where
  | heading (text : Str)
  | item (li : PccLi)
deriving DecidableEq, Repr

/-- The film fields `_parse_performances` uses from `_parse_film_data`. -/
structure PccFilmData where
  title : Str := []
  runtime : Option Nat := none
deriving DecidableEq, Repr

/-- `FORMAT_TAGS` of `prince_charles.py`, in insertion order. -/
def PCC_FORMAT_TAGS : List (Str × Str) :=
  [("4k".data, "4K".data), ("35mm".data, "35mm".data), ("70mm".data, "70mm".data),
   ("sub".data, "Subtitled".data), ("dub".data, "Dubbed".data), ("intro".data, "Intro".data),
   ("qa".data, "Q&A".data), ("£1 mem".data, "£1 Members".data), ("sing".data, "Sing-Along".data)]

/-- Full weekday names matched by `%A` (case-insensitively). -/
def dayNames : List Str :=
  ["monday".data, "tuesday".data, "wednesday".data, "thursday".data,
   "friday".data, "saturday".data, "sunday".data]

/-- Full month names matched by `%B` (case-insensitively), with their
numbers. -/
def monthNames : List (Str × Nat) :=
  [("january".data, 1), ("february".data, 2), ("march".data, 3), ("april".data, 4),
   ("may".data, 5), ("june".data, 6), ("july".data, 7), ("august".data, 8),
   ("september".data, 9), ("october".data, 10), ("november".data, 11), ("december".data, 12)]

/-- `re.sub(r'(\d+)(st|nd|rd|th)', r'\1', s)`: drop an ordinal suffix
directly after every digit run.  The flag records whether the previous
retained character was a digit. -/
def stripOrdinalsAux : Bool → Str → Str
  | _, [] => []
  | _, [c] => [c]
  | prevDigit, c :: y :: r =>
    if isDigit c then c :: stripOrdinalsAux true (y :: r)
    else if prevDigit ∧
        ([c, y] = ['s', 't'] ∨ [c, y] = ['n', 'd'] ∨ [c, y] = ['r', 'd'] ∨ [c, y] = ['t', 'h']) then
      stripOrdinalsAux false r
    else c :: stripOrdinalsAux false (y :: r)

/-- Ordinal-suffix removal entry point. -/
def stripOrdinals (s : Str) : Str := stripOrdinalsAux false s

/-- Case-insensitive name-alternation match: the first listed name that is
a prefix of `s` (lower-cased), with the remainder. -/
def matchNameCi (names : List Str) (s : Str) : Option (Str × Str) :=
  match names.find? (fun n => n.isPrefixOf (strLower s)) with
  | none => none
  | some n => some (n, s.drop n.length)

/-- Whitespace run required by a literal space in a `strptime` format. -/
def parseWsRun (s : Str) : Option Str :=
  match s with
  | c :: rest => if isPySpace c then some (rest.dropWhile isPySpace) else none
  | [] => none

/-- `datetime.strptime(f"{date_clean} {current_year}", "%A %d %B %Y")`:
weekday name (matched but otherwise ignored), day of month, month name,
year; then the constructor's date validation.  Returns midnight of the
date. -/
def pcc_strptime_heading (s : Str) : Option PyDateTime :=
  match matchNameCi dayNames s with
  | none => none
  | some (_, r1) =>
    match parseWsRun r1 with
    | none => none
    | some r2 =>
      match parseDayF r2 with
      | none => none
      | some (d, r3) =>
        match parseWsRun r3 with
        | none => none
        | some r4 =>
          match matchNameCi (monthNames.map (·.1)) r4 with
          | none => none
          | some (mn, r5) =>
            match (monthNames.find? (fun p => p.1 = mn)).map (·.2) with
            | none => none
            | some m =>
              match parseWsRun r5 with
              | none => none
              | some r6 =>
                match parseYear r6 with
                | none => none
                | some (y, r7) =>
                  if r7.isEmpty ∧ validDate y m d then
                    some { year := y, month := m, day := d, hour := 0, minute := 0 }
                  else none

/-- `PrinceCharlesScraper._parse_date_heading`: strip ordinal suffixes,
parse with the current year appended, and roll into the next year when
the parsed month is more than one month behind the current one. -/
def pcc_parse_date_heading (date_text : Str) (current_year current_month : Nat) :
    Option PyDateTime :=
  match pcc_strptime_heading (stripOrdinals date_text ++ ' ' :: four current_year) with
  | none => none
  | some parsed =>
    if (parsed.month : Int) < (current_month : Int) - 1 then
      some { parsed with year := parsed.year + 1 }
    else some parsed

/-- `datetime.strptime(time_text.strip(), "%I:%M %p")` and the subsequent
`date.replace(hour=…, minute=…, second=0, microsecond=0)` of
`PrinceCharlesScraper._parse_time`. -/
def pcc_parse_time (time_text : Str) (date : PyDateTime) : Option PyDateTime :=
  match parseHour12F (pyStrip time_text) with
  | none => none
  | some (h12, r1) =>
    match r1 with
    | ':' :: r2 =>
      (match parseMinF r2 with
       | none => none
       | some (mi, r3) =>
         match parseWsRun r3 with
         | none => none
         | some r4 =>
           match matchNameCi ["am".data, "pm".data] r4 with
           | none => none
           | some (ampm, r5) =>
             if r5.isEmpty then
               let hour := if ampm = "pm".data then (if h12 = 12 then 12 else h12 + 12)
                           else (if h12 = 12 then 0 else h12)
               some { date with hour := hour, minute := mi, second := 0 }
             else none)
    | _ => none

/-- `PrinceCharlesScraper._extract_format_tags`: normalized `movietag`
span texts followed by class-derived tags, without duplicates. -/
def pcc_extract_format_tags (li : PccLi) : List Str :=
  let fromTags := li.movietags.foldl
    (fun acc t =>
      let normalized := (dictGet PCC_FORMAT_TAGS (strLower t)).getD t
      if ¬ normalized.isEmpty ∧ normalized ∉ acc then acc ++ [normalized] else acc) []
  li.classes.foldl
    (fun acc cls =>
      match dictGet PCC_FORMAT_TAGS (strLower cls) with
      | some normalized => if normalized ∉ acc then acc ++ [normalized] else acc
      | none => acc) fromTags

/-- `PrinceCharlesScraper` venue website (`PRINCE_CHARLES_CINEMA.website`). -/
def PCC_WEBSITE : Str := "https://princecharlescinema.com/".data

/-- The walk of `_parse_performances` over headings and list items,
carrying the `current_date` state. -/
def pcc_performances_walk (film : PccFilmData) (current_year current_month : Nat)
    (scraped_at : PyDateTime) : List PccElem → Option PyDateTime → List Screening
  | [], _ => []
  | .heading text :: rest, _ =>
    pcc_performances_walk film current_year current_month scraped_at rest
      (pcc_parse_date_heading text current_year current_month)
  | .item li :: rest, current_date =>
    let keep := pcc_performances_walk film current_year current_month scraped_at rest current_date
    match li.bookBtn, current_date with
    | some btn, some date =>
      (match btn.time with
       | none => keep
       | some time_text =>
         match pcc_parse_time time_text date with
         | none => keep
         | some start0 =>
           let start_time := to_london start0
           let format_tags := pcc_extract_format_tags li
           let is_sold_out := strContains (joinSep [' '] li.classes) ("soldfilm_book_button".data)
           let notes_parts := format_tags ++ (if is_sold_out then [("Sold Out".data)] else [])
           let end_time := film.runtime.map fun r => addMinutes start_time r
           { cinema_id := "prince-charles-cinema".data
             cinema_name := "Prince Charles Cinema".data
             film_title := film.title, start_time := start_time, end_time := end_time
             booking_url := if btn.href.isEmpty then PCC_WEBSITE else btn.href
             notes := if notes_parts.isEmpty then none else some (joinSep ("; ".data) notes_parts)
             scraped_at := scraped_at } :: keep)
    | _, _ => keep

/-- `PrinceCharlesScraper._parse_performances`: walk the performance list
with no current date to start. -/
def pcc_parse_performances (elems : List PccElem) (film : PccFilmData)
    (current_year current_month : Nat) (scraped_at : PyDateTime) : List Screening :=
  pcc_performances_walk film current_year current_month scraped_at elems none

/-! ## The aggregator (`scripts/generate_screenings.py`) -/

/-- The dictionary `asdict(s)` after the aggregator replaces the datetime
fields by their `isoformat()` strings, in dataclass field order. -/
structure SRec where
  cinema_id : Str
  cinema_name : Str
  film_title : Str
  start_time : Str
  booking_url : Str
  format : Option Str
  screen : Option Str
  end_time : Option Str
  notes : Option Str
  scraped_at : Str
deriving DecidableEq, Repr

/-- The serialization loop body of `generate_screenings.main`. -/
def serializeScreening (s : Screening) : SRec :=
  { cinema_id := s.cinema_id, cinema_name := s.cinema_name, film_title := s.film_title
    start_time := isoformat s.start_time, booking_url := s.booking_url
    format := s.format, screen := s.screen
    end_time := s.end_time.map isoformat, notes := s.notes
    scraped_at := isoformat s.scraped_at }

/-- The result of one adapter's `scrape` call as seen by `run_scraper`:
either the screening list, or the message of the exception it raised. -/
structure ScraperOutcome where
  name : Str
  result : Except Str (List Screening)

/-- `generate_screenings.run_scraper`: the screenings on success, the
empty list when `scrape` raised. -/
def run_scraper (result : Except Str (List Screening)) : List Screening :=
  match result with
  | .ok l => l
  | .error _ => []

/-- The snapshot record `generate_screenings.main` builds (`stats` is a
`dict` keyed by the distinct adapter display names, modelled in insertion
order). -/
structure SnapshotOut where
  screenings : List SRec
  generated_at : Str
  total_screenings : Nat
  cinemas : Nat
  stats : List (Str × Nat)
deriving DecidableEq, Repr

/-- `generate_screenings.main` up to the file write: run every scraper
through `run_scraper`, record per-venue counts, concatenate, serialize,
sort by the `start_time` string (Python's stable sort on that key), and
assemble the snapshot.  `now` is the `datetime.now()` used for
`generated_at`. -/
def aggregator_main (outcomes : List ScraperOutcome) (now : PyDateTime) : SnapshotOut :=
  let stats := outcomes.map fun o => (o.name, (run_scraper o.result).length)
  let all_screenings := (outcomes.map fun o => run_scraper o.result).flatten
  let output := (all_screenings.map serializeScreening).mergeSort
    fun a b => strLe a.start_time b.start_time
  { screenings := output, generated_at := isoformat now
    total_screenings := output.length, cinemas := outcomes.length, stats := stats }

/-! ## Snapshot serialization (`json.dump`) and the file write -/

/-- Four-digit hex rendering used by `\uXXXX` escapes. -/
def hex4 (n : Nat) : Str := [hexDigit (n / 4096), hexDigit (n / 256), hexDigit (n / 16), hexDigit n]

/-- JSON string escaping with `ensure_ascii=True` (the `json.dump`
default): the two-character escapes, `\uXXXX` for other control and
non-ASCII characters, surrogate pairs for astral characters. -/
def jsonEscapeChar (c : Char) : Str :=
  if c = '"' then ['\\', '"']
  else if c = '\\' then ['\\', '\\']
  else if c = '\n' then ['\\', 'n']
  else if c = '\r' then ['\\', 'r']
  else if c = '\t' then ['\\', 't']
  else if c = Char.ofNat 8 then ['\\', 'b']
  else if c = Char.ofNat 12 then ['\\', 'f']
  else if c.toNat < 0x20 ∨ (0x7F ≤ c.toNat ∧ c.toNat < 0x10000) then '\\' :: 'u' :: hex4 c.toNat
  else if 0x10000 ≤ c.toNat then
    '\\' :: 'u' :: hex4 (0xD800 + (c.toNat - 0x10000) / 0x400) ++
      '\\' :: 'u' :: hex4 (0xDC00 + (c.toNat - 0x10000) % 0x400)
  else [c]

/-- Decimal rendering of a natural number. -/
def natToStr (n : Nat) : Str :=
  if _h : n < 10 then [digitChar n] else natToStr (n / 10) ++ [digitChar n]
termination_by n
decreasing_by exact Nat.div_lt_self (by omega) (by omega)

/-- Decimal rendering of an integer. -/
def intToStr (i : Int) : Str :=
  if i < 0 then '-' :: natToStr i.natAbs else natToStr i.natAbs

mutual

/-- Compact JSON rendering of a value (the claims only need that the
serialized snapshot is a non-empty string ending the write; the
`indent=2` whitespace of `json.dump(data, f, indent=2)` is not
reproduced). -/
def renderJson : Json → Str
  | .null => "null".data
  | .bool b => if b then "true".data else "false".data
  | .num m e => if e = 0 then intToStr m else intToStr m ++ 'e' :: intToStr e
  | .nan => "NaN".data
  | .inf neg => if neg then "-Infinity".data else "Infinity".data
  | .str s => '"' :: s.flatMap jsonEscapeChar ++ ['"']
  | .arr xs => '[' :: joinSep (", ".data) (renderJsonList xs) ++ [']']
  | .obj ms => '{' :: joinSep (", ".data) (renderJsonMembers ms) ++ ['}']

/-- Rendered elements of an array. -/
def renderJsonList : List Json → List Str
  | [] => []
  | x :: xs => renderJson x :: renderJsonList xs

/-- Rendered members of an object. -/
def renderJsonMembers : List (Str × Json) → List Str
  | [] => []
  | (k, v) :: ms =>
    ('"' :: k.flatMap jsonEscapeChar ++ '"' :: ':' :: ' ' :: renderJson v) :: renderJsonMembers ms

end

/-- An optional string as a JSON value (`None` becomes `null`). -/
def optStrJson : Option Str → Json
  | none => .null
  | some s => .str s

/-- One serialized screening dictionary as a JSON object. -/
def srecToJson (r : SRec) : Json :=
  .obj [("cinema_id".data, .str r.cinema_id), ("cinema_name".data, .str r.cinema_name),
        ("film_title".data, .str r.film_title), ("start_time".data, .str r.start_time),
        ("booking_url".data, .str r.booking_url), ("format".data, optStrJson r.format),
        ("screen".data, optStrJson r.screen), ("end_time".data, optStrJson r.end_time),
        ("notes".data, optStrJson r.notes), ("scraped_at".data, .str r.scraped_at)]

/-- The snapshot dictionary as a JSON object, in insertion order. -/
def snapshotToJson (o : SnapshotOut) : Json :=
  .obj [("screenings".data, .arr (o.screenings.map srecToJson)),
        ("generated_at".data, .str o.generated_at),
        ("total_screenings".data, .num o.total_screenings 0),
        ("cinemas".data, .num o.cinemas 0),
        ("stats".data, .obj (o.stats.map fun p => (p.1, Json.num p.2 0)))]

/-- The snapshot file text `json.dump` produces (modulo indentation). -/
def dumpSnapshot (o : SnapshotOut) : Str := renderJson (snapshotToJson o)

/-- The sequence of file contents a concurrent reader of the snapshot
path can observe during `main`'s write, in order: the previous content,
then the empty file the moment `open(output_path, 'w')` truncates it,
then the fully written text once `json.dump` has finished.  (The dump
itself streams in chunks, so intermediate prefixes are also observable;
the truncated state already witnesses a partial one.)  A write-then-rename
scheme would instead expose only `[old, new]`. -/
def write_snapshot_states (old new : Str) : List Str := [old, [], new]

/-! ## The query API (`api/index.py`) -/

/-- One entry of the `CINEMAS` table of `api/index.py`.  The numeric and
boolean amenity fields (`lat`, `lon`, `screens`, `seats`, `bar`, …) are
not modelled (floats); the claims concern the ids and the cardinality. -/
structure ApiCinema where
  id : Str
  name : Str
  area : Str
  website : Str
deriving DecidableEq, Repr

/-- The five entries of `CINEMAS`, in insertion order. -/
def API_CINEMAS : List ApiCinema :=
  [{ id := "rio".data, name := "Rio Cinema".data, area := "Dalston".data
     website := "https://riocinema.org.uk".data },
   { id := "curzon-hoxton".data, name := "Curzon Hoxton".data, area := "Hoxton".data
     website := "https://www.curzon.com/venues/hoxton/".data },
   { id := "prince-charles-cinema".data, name := "Prince Charles Cinema".data
     area := "Leicester Square".data, website := "https://princecharlescinema.com/".data },
   { id := "barbican-cinema".data, name := "Barbican Cinema".data, area := "Barbican".data
     website := "https://www.barbican.org.uk/whats-on/cinema".data },
   { id := "garden-cinema".data, name := "The Garden Cinema".data, area := "Covent Garden".data
     website := "https://thegardencinema.co.uk".data }]

/-- `list_cinemas` (`GET /api/cinemas`): `list(CINEMAS.values())`; reads
nothing else, in particular not the snapshot. -/
def list_cinemas : List ApiCinema := API_CINEMAS

/-- The `SCRAPERS` registry of `generate_screenings.py`: display name and
the `Cinema.id` of each scraper's fixed venue descriptor. -/
def SCRAPERS_REGISTRY : List (Str × Str) :=
  [("Rio Cinema".data, "rio".data),
   ("Curzon Hoxton".data, "curzon-hoxton".data),
   ("Prince Charles Cinema".data, "prince-charles-cinema".data),
   ("Barbican Cinema".data, "barbican-cinema".data),
   ("Garden Cinema".data, "garden-cinema".data),
   ("Everyman Broadgate".data, "everyman-broadgate".data),
   ("Vue Islington".data, "vue-islington".data)]

/-- `dict.get` on a parsed JSON object (`none` for a missing key or a
non-object; duplicate keys resolve to the last, as `json.loads` builds a
`dict`). -/
def jGet (j : Json) (k : Str) : Option Json :=
  match j with
  | .obj ms => ((ms.reverse).find? (fun p => p.1 = k)).map (·.2)
  | _ => none

/-- `load_screenings` of `api/index.py`: `none` (no file) triggers the
`FileNotFoundError` handler and yields the empty default; otherwise the
contents go through `json.load`, whose failure on corrupt contents is NOT
caught and propagates (`.error`). -/
def load_screenings (file : Option Str) : Except Unit Json :=
  match file with
  | none =>
    .ok (.obj [("screenings".data, .arr []), ("generated_at".data, .null),
               ("total_screenings".data, .num 0 0)])
  | some content =>
    match jsonLoads? content with
    | some j => .ok j
    | none => .error ()

/-- The JSON response shape of `GET /api/screenings`. -/
structure ApiResponse where
  screenings : List Json
  total : Nat
  generated_at : Json
deriving Repr

/-- Truthiness of an optional query parameter (`if cinema:` is false both
for `None` and for an empty string). -/
def pyTruthy : Option Str → Bool
  | none => false
  | some s => ¬ s.isEmpty

/-- The body of `get_screenings` after `load_screenings`: take
`data.get('screenings', [])`, filter by `cinema_id` equality, then by
`start_time.startswith(date)`, and return the list with its length and
`data.get('generated_at')`.  A record whose `start_time` is not a string
would raise in Python; snapshot records always carry strings there. -/
def api_filter_screenings (data : Json) (cinema date : Option Str) : ApiResponse :=
  let screenings :=
    match jGet data ("screenings".data) with
    | some (.arr l) => l
    | _ => []
  let screenings :=
    if pyTruthy cinema then
      screenings.filter fun s =>
        match jGet s ("cinema_id".data) with
        | some (.str t) => t = cinema.getD []
        | _ => false
    else screenings
  let screenings :=
    if pyTruthy date then
      screenings.filter fun s =>
        (date.getD []).isPrefixOf
          (match jGet s ("start_time".data) with
           | some (.str t) => t
           | _ => [])
    else screenings
  { screenings := screenings, total := screenings.length
    generated_at := (jGet data ("generated_at".data)).getD .null }

/-- `GET /api/screenings` end to end: load (or default) the snapshot,
then filter; a corrupt snapshot file propagates the decode error as a
failed request. -/
def get_screenings (file : Option Str) (cinema date : Option Str) : Except Unit ApiResponse :=
  (load_screenings file).map fun data => api_filter_screenings data cinema date

/-! ## Specification-side definitions used by the theorems -/

/-- Opening minus closing brace count of a string (the net depth change
of the Rio scan over it). -/
def braceDelta (l : Str) : Int := (l.count '{' : Int) - (l.count '}' : Int)

/-- Position `n` closes the scanned region: it holds a `}` and the braces
up to and including it balance out. -/
def closesAt (l : Str) (n : Nat) : Prop :=
  l[n]? = some '}' ∧ braceDelta (l.take (n + 1)) = 0

instance decClosesAt (l : Str) (n : Nat) : Decidable (closesAt l n) := by
  unfold closesAt; infer_instance

/-- The UTC instant denoted by an aware ISO-8601 string
`YYYY-MM-DDTHH:MM:SS±HH:MM`, in seconds since the epoch. -/
def parseIsoInstant (s : Str) : Option Int :=
  match s with
  | y1 :: y2 :: y3 :: y4 :: '-' :: m1 :: m2 :: '-' :: d1 :: d2 :: 'T' ::
      h1 :: h2 :: ':' :: i1 :: i2 :: ':' :: s1 :: s2 :: sign :: o1 :: o2 :: ':' :: p1 :: p2 :: [] =>
    if [y1, y2, y3, y4, m1, m2, d1, d2, h1, h2, i1, i2, s1, s2, o1, o2, p1, p2].all isDigit ∧
        (sign = '+' ∨ sign = '-') then
      let y := ((dval y1 * 10 + dval y2) * 10 + dval y3) * 10 + dval y4
      let m := dval m1 * 10 + dval m2
      let d := dval d1 * 10 + dval d2
      let civilSec := (daysFromCivil y m d * 1440 +
        (dval h1 * 10 + dval h2) * 60 + (dval i1 * 10 + dval i2)) * 60 +
        (dval s1 * 10 + dval s2)
      let offMin : Int := (dval o1 * 10 + dval o2) * 60 + (dval p1 * 10 + dval p2)
      some (civilSec - (if sign = '-' then -offMin else offMin) * 60)
    else none
  | _ => none

/-- A fixed `now_london()` capture time used by concrete sample inputs. -/
def sampleScrapedAt : PyDateTime := to_london ⟨2025, 12, 20, 12, 0, 0, none⟩

/-- A fixed rolling-window cutoff (`datetime.now() + timedelta(days=14)`). -/
def sampleCutoff : PyDateTime := ⟨2026, 1, 3, 12, 0, 0, none⟩

/-- A Rio event as `_parse_event` receives it, with one open performance
carrying both a date and a time but no booking URL anywhere. -/
def sampleRioEventNoUrl : RioEvent :=
  { title := some ("Film".data), url := none
    performances := [{ startDate := some ("2025-12-27".data), startTime := some ("1430".data) }] }

/-- A Rio event with a performance booking URL. -/
def sampleRioEvent : RioEvent :=
  { title := some ("Film".data), url := some ("WhatsOn?f=1".data)
    performances := [{ startDate := some ("2025-12-27".data), startTime := some ("1430".data)
                       url := some ("TcsPerformance?1".data) }] }

/-- A Garden film block with one bookable time link. -/
def sampleGardenBlock : GardenFilmBlock :=
  { title := some ("The Shining15".data), stats := some ("Stanley Kubrick, 1980, 142m.".data)
    timeLinks := some [{ text := "17:00".data
                         href := "https://thegardencinema.co.uk/TheGardenCinema.dll/TcsPerformance?1".data }] }

/-- A Prince Charles performance list: a date heading and one item. -/
def samplePccElems : List PccElem :=
  [.heading ("Friday 26th December".data),
   .item { bookBtn := some { time := some ("2:30 pm".data)
                             href := "https://princecharlescinema.com/book/1".data } }]

/-- A Prince Charles item whose booking button has an empty `href`. -/
def samplePccElemsNoHref : List PccElem :=
  [.heading ("Friday 26th December".data),
   .item { bookBtn := some { time := some ("2:30 pm".data) } }]

/-- An Everyman DOM extraction result with one film and two times, one of
them with an empty purchase link. -/
def sampleEmData : List EmItem :=
  [{ title := "Marty Supreme15".data
     times := [{ time := "19:45".data, url := "https://www.everymancinema.com/purchase/1".data },
               { time := "21:00".data }] }]

/-- A Garden screening on the duplicated autumn-changeover hour: wall
clock 01:30 on 2025-10-26, normalized by `to_london` from naive input
(reported as BST, `+01:00`). -/
def sampleFoldScreeningBST : Screening :=
  { cinema_id := "garden-cinema".data, cinema_name := "The Garden Cinema".data
    film_title := "Late Show".data
    start_time := to_london ⟨2025, 10, 26, 1, 30, 0, none⟩
    booking_url := "https://thegardencinema.co.uk/TheGardenCinema.dll/TcsPerformance?9".data
    scraped_at := sampleScrapedAt }

/-- A Vue-style screening from an aware UTC upstream instant 01:15Z on
the same morning, normalized by `to_london` via `astimezone` (reported as
GMT, `+00:00`), which is the earlier wall clock but the later instant. -/
def sampleFoldScreeningGMT : Screening :=
  { cinema_id := "vue-islington".data, cinema_name := "Vue Islington".data
    film_title := "Late Show".data
    start_time := to_london ⟨2025, 10, 26, 1, 15, 0, some ⟨.fixedOffset, 0⟩⟩
    booking_url := "https://www.myvue.com/book/9".data
    scraped_at := sampleScrapedAt }

/-- The two-adapter aggregator run mixing the two offsets above. -/
def sampleFoldOutcomes : List ScraperOutcome :=
  [{ name := "Garden Cinema".data, result := .ok [sampleFoldScreeningBST] },
   { name := "Vue Islington".data, result := .ok [sampleFoldScreeningGMT] }]

/-- A fixed `datetime.now()` for aggregator runs in concrete examples. -/
def sampleNow : PyDateTime := ⟨2025, 12, 20, 6, 0, 0, none⟩

/-- A screening list for the query-API examples: two screenings on
2025-12-26 London time (00:05 and 23:55) and one at 00:05 the following
morning, as the spec's boundary scenario describes. -/
def sampleBoundaryScreenings : List Screening :=
  [{ cinema_id := "rio".data, cinema_name := "Rio Cinema".data
     film_title := "A".data, start_time := to_london ⟨2025, 12, 26, 0, 5, 0, none⟩
     booking_url := "https://riocinema.org.uk/Rio.dll/T1".data, scraped_at := sampleScrapedAt },
   { cinema_id := "rio".data, cinema_name := "Rio Cinema".data
     film_title := "B".data, start_time := to_london ⟨2025, 12, 26, 23, 55, 0, none⟩
     booking_url := "https://riocinema.org.uk/Rio.dll/T2".data, scraped_at := sampleScrapedAt },
   { cinema_id := "garden-cinema".data, cinema_name := "The Garden Cinema".data
     film_title := "C".data, start_time := to_london ⟨2025, 12, 27, 0, 5, 0, none⟩
     booking_url := "https://thegardencinema.co.uk/TheGardenCinema.dll/TcsPerformance?2".data
     scraped_at := sampleScrapedAt }]

/-- An aggregator run for the partial-failure scenario: one adapter
returns a screening, one raises, one returns none. -/
def sampleFailureOutcomes : List ScraperOutcome :=
  [{ name := "Rio Cinema".data
     result := .ok (rio_parse_event sampleRioEvent sampleCutoff sampleScrapedAt) },
   { name := "Curzon Hoxton".data, result := .error ("ConnectTimeout".data) },
   { name := "Garden Cinema".data, result := .ok [] }]

/-! ## Helper lemmas -/

/-- Sorting a two-element list only compares the pair once. -/
theorem mergeSort_pair {α : Type} (le : α → α → Bool) (a b : α) :
    [a, b].mergeSort le = if le a b then [a, b] else [b, a] := by
  simp [List.mergeSort, List.merge]

/-- The serialized snapshot text is never empty (it is a JSON object,
starting with an opening brace). -/
theorem dumpSnapshot_ne_nil (o : SnapshotOut) : dumpSnapshot o ≠ [] := by
  simp [dumpSnapshot, snapshotToJson, renderJson]

/-- `to_london` always attaches the London zone. -/
theorem to_london_tz (dt : PyDateTime) :
    ∃ off, (to_london dt).tz = some ⟨TzKind.london, off⟩ := by
  unfold to_london
  cases h : dt.tz with
  | none => exact ⟨_, rfl⟩
  | some t => exact ⟨_, rfl⟩

/-- `strLe` is total. -/
theorem strLe_total (a b : Str) : strLe a b || strLe b a := by
  induction a generalizing b with
  | nil => simp [strLe]
  | cons c as ih =>
    cases b with
    | nil => simp [strLe]
    | cons d bs =>
      simp only [strLe]
      by_cases h1 : c.toNat < d.toNat
      · simp [h1]
      · by_cases h2 : d.toNat < c.toNat
        · simp [h1, h2]
        · simpa [h1, h2] using ih bs

/-- `strLe` is transitive. -/
theorem strLe_trans (a b c : Str) (h1 : strLe a b) (h2 : strLe b c) : strLe a c := by
  induction a generalizing b c with
  | nil => simp [strLe]
  | cons x as ih =>
    cases b with
    | nil => simp [strLe] at h1
    | cons y bs =>
      cases c with
      | nil => simp [strLe] at h2
      | cons z cs =>
        simp only [strLe] at h1 h2 ⊢
        by_cases hxy : x.toNat < y.toNat
        · by_cases hyz : y.toNat < z.toNat
          · rw [if_pos (show x.toNat < z.toNat by omega)]
          · by_cases hzy : z.toNat < y.toNat
            · rw [if_neg hyz, if_pos hzy] at h2; exact absurd h2 (by simp)
            · rw [if_pos (show x.toNat < z.toNat by omega)]
        · by_cases hyx : y.toNat < x.toNat
          · rw [if_neg hxy, if_pos hyx] at h1; exact absurd h1 (by simp)
          · rw [if_neg hxy, if_neg hyx] at h1
            by_cases hyz : y.toNat < z.toNat
            · rw [if_pos (show x.toNat < z.toNat by omega)]
            · by_cases hzy : z.toNat < y.toNat
              · rw [if_neg hyz, if_pos hzy] at h2; exact absurd h2 (by simp)
              · rw [if_neg hyz, if_neg hzy] at h2
                rw [if_neg (show ¬ x.toNat < z.toNat by omega),
                  if_neg (show ¬ z.toNat < x.toNat by omega)]
                exact ih bs cs h1 h2

/-- A prefix of the same length as the left part of an append equals it. -/
theorem eq_left_of_isPrefixOf_append {p a b : Str} (hlen : p.length = a.length)
    (h : p.isPrefixOf (a ++ b)) : p = a := by
  have hpre : p <+: a ++ b := List.isPrefixOf_iff_prefix.mp h
  obtain ⟨t, ht⟩ := hpre
  have := List.append_inj_left ht.symm hlen.symm
  exact this.symm

/-! ## C10 -/

/-- C10: `list_cinemas` returns exactly the five fixed descriptors with
ids `rio`, `curzon-hoxton`, `prince-charles-cinema`, `barbican-cinema`,
`garden-cinema` (it never touches the snapshot), while the aggregator's
scraper registry additionally holds the Everyman Broadgate and Vue
Islington adapters, whose venue ids `everyman-broadgate` and
`vue-islington` are absent from the cinema listing. -/
theorem C10_fixed_cinema_registry :
    list_cinemas.map (fun c => c.id) =
      ["rio".data, "curzon-hoxton".data, "prince-charles-cinema".data,
       "barbican-cinema".data, "garden-cinema".data] ∧
    list_cinemas.length = 5 ∧
    ("Everyman Broadgate".data, "everyman-broadgate".data) ∈ SCRAPERS_REGISTRY ∧
    ("Vue Islington".data, "vue-islington".data) ∈ SCRAPERS_REGISTRY ∧
    "everyman-broadgate".data ∉ list_cinemas.map (fun c => c.id) ∧
    "vue-islington".data ∉ list_cinemas.map (fun c => c.id) := by
  decide

/-! ## C8 -/

set_option maxRecDepth 20000 in
/-- Cross-check of the MD5 model against RFC 1321's first test vector. -/
theorem md5Hex_abc :
    md5Hex (utf8Encode ("abc".data)) = "900150983cd24fb0d6963f7d28e17f72".data := by
  decide

/-- C8: the derived screening `id` is a pure function of exactly the
triple (`cinema_id`, `film_title`, `start_time`); any two screenings
agreeing on the triple share the id whatever their remaining fields. -/
theorem C8_id_depends_only_on_key_triple (s1 s2 : Screening)
    (h1 : s1.cinema_id = s2.cinema_id) (h2 : s1.film_title = s2.film_title)
    (h3 : s1.start_time = s2.start_time) : s1.id = s2.id := by
  unfold Screening.id screeningKey
  rw [h1, h2, h3]

/-- Witness for C8: two screenings sharing only the key triple (differing
in `cinema_name`, `booking_url`, `notes` and `scraped_at`) get equal ids. -/
theorem C8_witness :
    ({ cinema_id := "rio".data, cinema_name := "Rio Cinema".data
       film_title := "Film".data, start_time := ⟨2025, 12, 27, 14, 30, 0, none⟩
       booking_url := "https://riocinema.org.uk/Rio.dll/T1".data
       scraped_at := sampleScrapedAt } : Screening).id =
    ({ cinema_id := "rio".data, cinema_name := "RIO".data
       film_title := "Film".data, start_time := ⟨2025, 12, 27, 14, 30, 0, none⟩
       booking_url := "https://riocinema.org.uk".data
       notes := some ("Q&A after".data)
       scraped_at := to_london ⟨2025, 12, 21, 9, 0, 0, none⟩ } : Screening).id :=
  C8_id_depends_only_on_key_triple _ _ rfl rfl rfl

/-! ## C3 -/

/-- Counterexample for C3: the snapshot write is an in-place truncate and
rewrite, so during a run over a previous snapshot `{old}` a concurrent
reader can observe a state (the truncated empty file) that is neither the
old nor the new snapshot — the write is not atomic. -/
theorem C3_counterexample :
    ¬ ∀ st ∈ write_snapshot_states ("\x7bold\x7d".data)
        (dumpSnapshot (aggregator_main [] sampleNow)),
      st = "\x7bold\x7d".data ∨ st = dumpSnapshot (aggregator_main [] sampleNow) := by
  intro h
  have hmem : ([] : Str) ∈ write_snapshot_states ("\x7bold\x7d".data)
      (dumpSnapshot (aggregator_main [] sampleNow)) := by
    simp [write_snapshot_states]
  rcases h [] hmem with h1 | h2
  · exact absurd h1.symm (by decide)
  · exact dumpSnapshot_ne_nil _ h2.symm

/-- C3 as amended: the aggregator replaces the snapshot by opening the
file for writing (truncating it) and dumping the serialized JSON into it;
the write completes with the full serialization as the final state, but
it is not atomic — the truncated empty state is observable in between. -/
theorem C3_amended (old : Str) (data : SnapshotOut) :
    write_snapshot_states old (dumpSnapshot data) = [old, [], dumpSnapshot data] ∧
    (write_snapshot_states old (dumpSnapshot data)).getLast? = some (dumpSnapshot data) ∧
    dumpSnapshot data ≠ [] :=
  ⟨rfl, rfl, dumpSnapshot_ne_nil data⟩

/-! ## C4 -/

/-- Counterexample for C4: a corrupt (non-JSON) snapshot file is not
tolerated — `load_screenings` only catches `FileNotFoundError`, so the
decode error propagates and the request fails instead of returning an
empty result. -/
theorem C4_counterexample :
    get_screenings (some ("no snapshot here".data)) none none = .error () := by rfl

/-- C4 as amended: a missing snapshot file degrades to the empty result
(`screenings = []`, `total = 0`, `generated_at = null`) for any filter
parameters, but corrupt (unparseable) contents raise: the JSON decode
error propagates and fails the request. -/
theorem C4_amended :
    (∀ cinema date, get_screenings none cinema date =
      .ok { screenings := [], total := 0, generated_at := .null }) ∧
    ∀ content, jsonLoads? content = none →
      get_screenings (some content) none none = .error () := by
  constructor
  · intro cinema date
    unfold get_screenings load_screenings
    simp only [Except.map]
    have hbody : api_filter_screenings
        (.obj [("screenings".data, .arr []), ("generated_at".data, .null),
               ("total_screenings".data, .num 0 0)]) cinema date =
        { screenings := [], total := 0, generated_at := .null } := by
      unfold api_filter_screenings
      cases hc : pyTruthy cinema <;> cases hd : pyTruthy date <;> simp only [hc, hd] <;> rfl
    rw [hbody]
  · intro content h
    unfold get_screenings load_screenings
    simp only [h]
    rfl

/-- Witness for C4: the missing-file default at concrete parameters, and
a concrete corrupt content (a lone opening brace) failing the request. -/
theorem C4_witness :
    get_screenings none (some ("rio".data)) none =
      .ok { screenings := [], total := 0, generated_at := .null } ∧
    get_screenings (some ("\x7b".data)) none none = .error () :=
  ⟨C4_amended.1 (some ("rio".data)) none, C4_amended.2 ("\x7b".data) rfl⟩

/-! ## Adapter output lemmas (used by C1 and C7) -/

/-- The Rio strptime model only ever builds naive datetimes. -/
theorem strptime_ymd_hm_tz {s : Str} {dt : PyDateTime}
    (h : strptime_ymd_hm s = some dt) : dt.tz = none := by
  unfold strptime_ymd_hm at h
  repeat' split at h
  all_goals cases h <;> rfl

/-- Every screening `_parse_event` emits has a naive (timezone-free)
`start_time`. -/
theorem rio_forall_naive (ev : RioEvent) (cutoff sa : PyDateTime) :
    (rio_parse_event ev cutoff sa).Forall fun s => s.start_time.tz = none := by
  rw [List.forall_iff_forall_mem]
  intro s hs
  unfold rio_parse_event at hs
  rw [List.mem_filterMap] at hs
  obtain ⟨perf, _, hf⟩ := hs
  split at hf
  · cases hf
  · split at hf
    · split at hf
      · cases hf
      · split at hf
        · cases hf
        · rename_i heq
          split at hf
          · cases hf
          · cases hf
            exact strptime_ymd_hm_tz heq
    · cases hf

/-- Every screening `_parse_event` emits has a booking URL that either
extends the Rio ticketing route or is exactly the event's own URL (the
only fallback; there is no venue-website substitution). -/
theorem rio_forall_booking (ev : RioEvent) (cutoff sa : PyDateTime) :
    (rio_parse_event ev cutoff sa).Forall fun s =>
      ("https://riocinema.org.uk/Rio.dll/".data).isPrefixOf s.booking_url ∨
      s.booking_url = ev.url.getD [] := by
  rw [List.forall_iff_forall_mem]
  intro s hs
  unfold rio_parse_event at hs
  rw [List.mem_filterMap] at hs
  obtain ⟨perf, _, hf⟩ := hs
  split at hf
  · cases hf
  · split at hf
    · split at hf
      · cases hf
      · split at hf
        · cases hf
        · split at hf
          · cases hf
          · cases hf
            dsimp only
            by_cases hurl : (perf.url.getD []).isEmpty
            · right
              simp [hurl]
            · left
              rw [if_pos (by simpa using hurl)]
              rw [List.isPrefixOf_iff_prefix]
              refine ⟨perf.url.getD [], ?_⟩
              rw [show RIO_BASE_URL ++ "/Rio.dll/".data =
                "https://riocinema.org.uk/Rio.dll/".data from by decide]
    · cases hf

/-- Every screening the Everyman extraction emits has a naive
`start_time`. -/
theorem em_forall_naive (data : List EmItem) (date : Nat × Nat × Nat) (sa : PyDateTime) :
    (em_extract_showtimes data date sa).Forall fun s => s.start_time.tz = none := by
  rw [List.forall_iff_forall_mem]
  intro s hs
  unfold em_extract_showtimes at hs
  rw [List.mem_flatMap] at hs
  obtain ⟨item, _, hmem⟩ := hs
  dsimp only at hmem
  split at hmem
  · cases hmem
  · rw [List.mem_filterMap] at hmem
    obtain ⟨ti, _, hf⟩ := hmem
    split at hf
    · cases hf
    · split at hf
      · cases hf; rfl
      · cases hf

/-- Every screening the Everyman extraction emits has a non-empty
booking URL (the venue URL is substituted for an empty link). -/
theorem em_forall_booking (data : List EmItem) (date : Nat × Nat × Nat) (sa : PyDateTime) :
    (em_extract_showtimes data date sa).Forall fun s => s.booking_url ≠ [] := by
  rw [List.forall_iff_forall_mem]
  intro s hs
  unfold em_extract_showtimes at hs
  rw [List.mem_flatMap] at hs
  obtain ⟨item, _, hmem⟩ := hs
  dsimp only at hmem
  split at hmem
  · cases hmem
  · rw [List.mem_filterMap] at hmem
    obtain ⟨ti, _, hf⟩ := hmem
    split at hf
    · cases hf
    · split at hf
      · cases hf
        by_cases hurl : ti.url.isEmpty
        · simp [hurl, EVERYMAN_VENUE_URL]
        · simp only [hurl, if_false]
          simpa using hurl
      · cases hf

/-- Every screening the Garden block parser emits routes its start time
through `to_london`, hence carries the London zone. -/
theorem garden_forall_london (block : GardenFilmBlock) (date : Nat × Nat × Nat)
    (sa : PyDateTime) :
    (garden_parse_film_block block date sa).Forall fun s =>
      ∃ off, s.start_time.tz = some ⟨TzKind.london, off⟩ := by
  rw [List.forall_iff_forall_mem]
  intro s hs
  unfold garden_parse_film_block at hs
  dsimp only at hs
  split at hs
  · cases hs
  · split at hs
    · cases hs
    · split at hs
      · cases hs
      · rw [List.mem_filterMap] at hs
        obtain ⟨link, _, hf⟩ := hs
        split at hf
        · cases hf
        · split at hf
          · cases hf
          · split at hf
            · cases hf
              exact to_london_tz _
            · cases hf

/-- Every screening the Garden block parser emits uses the raw link
`href` as its booking URL. -/
theorem garden_forall_booking (block : GardenFilmBlock) (date : Nat × Nat × Nat)
    (sa : PyDateTime) :
    (garden_parse_film_block block date sa).Forall fun s =>
      ∃ link ∈ block.timeLinks.getD [], s.booking_url = link.href := by
  rw [List.forall_iff_forall_mem]
  intro s hs
  unfold garden_parse_film_block at hs
  dsimp only at hs
  split at hs
  · cases hs
  · split at hs
    · cases hs
    · split at hs
      · cases hs
      · rename_i hlinks
        rw [List.mem_filterMap] at hs
        obtain ⟨link, hmem, hf⟩ := hs
        split at hf
        · cases hf
        · split at hf
          · cases hf
          · split at hf
            · cases hf
              exact ⟨link, by simp only [hlinks, Option.getD_some]; exact hmem, rfl⟩
            · cases hf

/-- Every screening of the Prince Charles walk routes its start time
through `to_london`. -/
theorem pcc_forall_london (film : PccFilmData) (cy cm : Nat) (sa : PyDateTime)
    (elems : List PccElem) (cur : Option PyDateTime) :
    (pcc_performances_walk film cy cm sa elems cur).Forall fun s =>
      ∃ off, s.start_time.tz = some ⟨TzKind.london, off⟩ := by
  induction elems generalizing cur with
  | nil => exact trivial
  | cons e rest ih =>
    cases e with
    | heading text => exact ih _
    | item li =>
      rw [List.forall_iff_forall_mem]
      intro s hs
      unfold pcc_performances_walk at hs
      dsimp only at hs
      split at hs
      · split at hs
        · exact (List.forall_iff_forall_mem.mp (ih _)) s hs
        · split at hs
          · exact (List.forall_iff_forall_mem.mp (ih _)) s hs
          · rcases List.mem_cons.mp hs with h | h
            · subst h; exact to_london_tz _
            · exact (List.forall_iff_forall_mem.mp (ih _)) s h
      · exact (List.forall_iff_forall_mem.mp (ih _)) s hs

/-- Every screening of the Prince Charles walk has a non-empty booking
URL (the venue website is substituted for an empty `href`). -/
theorem pcc_forall_booking (film : PccFilmData) (cy cm : Nat) (sa : PyDateTime)
    (elems : List PccElem) (cur : Option PyDateTime) :
    (pcc_performances_walk film cy cm sa elems cur).Forall fun s =>
      s.booking_url ≠ [] := by
  induction elems generalizing cur with
  | nil => exact trivial
  | cons e rest ih =>
    cases e with
    | heading text => exact ih _
    | item li =>
      rw [List.forall_iff_forall_mem]
      intro s hs
      unfold pcc_performances_walk at hs
      dsimp only at hs
      split at hs
      · split at hs
        · exact (List.forall_iff_forall_mem.mp (ih _)) s hs
        · split at hs
          · exact (List.forall_iff_forall_mem.mp (ih _)) s hs
          · rcases List.mem_cons.mp hs with h | h
            · subst h
              dsimp only
              split
              · decide
              · rename_i hurl
                simpa [List.isEmpty_iff] using hurl
            · exact (List.forall_iff_forall_mem.mp (ih _)) s h
      · exact (List.forall_iff_forall_mem.mp (ih _)) s hs

/-! ## C1 -/

/-- Counterexample for C1: the Rio adapter returns a screening whose
`start_time` is naive — `_parse_event` stores the bare `strptime` result
and never calls `to_london`, so its `tzinfo` is unset. -/
theorem C1_counterexample :
    (rio_parse_event sampleRioEvent sampleCutoff sampleScrapedAt).map
      (fun s => s.start_time.tz) = [none] := by rfl

/-- C1 as amended: the normalization helper `to_london` always returns an
aware London datetime, and the Garden and Prince Charles adapters route
every emitted `start_time` through it; but the invariant does not hold
for every adapter — the Rio and Everyman adapters emit naive datetimes
(no `tzinfo`) into the aggregated set. -/
theorem C1_amended :
    (∀ dt, ∃ off, (to_london dt).tz = some ⟨TzKind.london, off⟩) ∧
    (∀ block date sa, (garden_parse_film_block block date sa).Forall fun s =>
      ∃ off, s.start_time.tz = some ⟨TzKind.london, off⟩) ∧
    (∀ elems film cy cm sa, (pcc_parse_performances elems film cy cm sa).Forall fun s =>
      ∃ off, s.start_time.tz = some ⟨TzKind.london, off⟩) ∧
    (∀ ev cutoff sa, (rio_parse_event ev cutoff sa).Forall fun s =>
      s.start_time.tz = none) ∧
    (∀ data date sa, (em_extract_showtimes data date sa).Forall fun s =>
      s.start_time.tz = none) :=
  ⟨to_london_tz,
   fun block date sa => garden_forall_london block date sa,
   fun elems film cy cm sa => pcc_forall_london film cy cm sa elems none,
   fun ev cutoff sa => rio_forall_naive ev cutoff sa,
   fun data date sa => em_forall_naive data date sa⟩

/-! ## C7 -/

/-- Counterexample for C7: when a Rio performance has no booking URL and
its event has none either, `_parse_event` falls back to the event URL
default `''` and emits a screening with an empty `booking_url` — no
venue-website substitution happens. -/
theorem C7_counterexample :
    (rio_parse_event sampleRioEventNoUrl sampleCutoff sampleScrapedAt).map
      (fun s => s.booking_url) = [[]] := by rfl

/-- C7 as amended: the Everyman and Prince Charles adapters always emit a
non-empty `booking_url`, substituting their venue URL when the upstream
link is empty; the Rio and Garden adapters have no venue fallback — Rio
either extends its ticketing route or passes the event's own URL through
(which may be empty or relative), and Garden uses the raw link `href`
unchanged. -/
theorem C7_amended :
    (∀ data date sa, (em_extract_showtimes data date sa).Forall fun s =>
      s.booking_url ≠ []) ∧
    (∀ elems film cy cm sa, (pcc_parse_performances elems film cy cm sa).Forall fun s =>
      s.booking_url ≠ []) ∧
    (∀ ev cutoff sa, (rio_parse_event ev cutoff sa).Forall fun s =>
      ("https://riocinema.org.uk/Rio.dll/".data).isPrefixOf s.booking_url ∨
      s.booking_url = ev.url.getD []) ∧
    (∀ block date sa, (garden_parse_film_block block date sa).Forall fun s =>
      ∃ link ∈ block.timeLinks.getD [], s.booking_url = link.href) :=
  ⟨fun data date sa => em_forall_booking data date sa,
   fun elems film cy cm sa => pcc_forall_booking film cy cm sa elems none,
   fun ev cutoff sa => rio_forall_booking ev cutoff sa,
   fun block date sa => garden_forall_booking block date sa⟩

/-! ## C2 -/

/-- C2: if adapter `k` raises, the run does not abort: `run_scraper`
turns the exception into zero screenings, the per-venue stats entry for
`k` is `(name, 0)`, the snapshot holds exactly the screenings of the
adapters that succeeded (the sort permutes the concatenation of the
per-adapter `run_scraper` results, which is `[]` at `k`), the recorded
total matches, and the snapshot write still runs to completion with the
full serialization as the final file state. -/
theorem C2_partial_failure_isolation (outcomes : List ScraperOutcome) (now : PyDateTime)
    (old : Str) (k : Nat) (hk : k < outcomes.length) (e : Str)
    (herr : outcomes[k].result = .error e) :
    run_scraper outcomes[k].result = [] ∧
    (aggregator_main outcomes now).stats[k]? = some (outcomes[k].name, 0) ∧
    (aggregator_main outcomes now).screenings.Perm
      (((outcomes.map fun o => run_scraper o.result).flatten).map serializeScreening) ∧
    (aggregator_main outcomes now).total_screenings =
      (aggregator_main outcomes now).screenings.length ∧
    (write_snapshot_states old (dumpSnapshot (aggregator_main outcomes now))).getLast? =
      some (dumpSnapshot (aggregator_main outcomes now)) := by
  refine ⟨by rw [herr]; rfl, ?_, ?_, rfl, rfl⟩
  · unfold aggregator_main
    dsimp only
    rw [List.getElem?_map, List.getElem?_eq_getElem hk, Option.map_some']
    rw [herr]
    rfl
  · unfold aggregator_main
    dsimp only
    exact List.mergeSort_perm _ _

/-- Witness for C2: the spec's scenario — three adapters of which one
returns a screening, one raises and one returns nothing — instantiated
at the failing index `1`. -/
theorem C2_witness :
    run_scraper (sampleFailureOutcomes.get ⟨1, by decide⟩).result = [] ∧
    (aggregator_main sampleFailureOutcomes sampleNow).stats[1]? =
      some ((sampleFailureOutcomes.get ⟨1, by decide⟩).name, 0) ∧
    (aggregator_main sampleFailureOutcomes sampleNow).screenings.Perm
      (((sampleFailureOutcomes.map fun o => run_scraper o.result).flatten).map
        serializeScreening) ∧
    (aggregator_main sampleFailureOutcomes sampleNow).total_screenings =
      (aggregator_main sampleFailureOutcomes sampleNow).screenings.length ∧
    (write_snapshot_states ("\x7bold\x7d".data)
        (dumpSnapshot (aggregator_main sampleFailureOutcomes sampleNow))).getLast? =
      some (dumpSnapshot (aggregator_main sampleFailureOutcomes sampleNow)) :=
  C2_partial_failure_isolation sampleFailureOutcomes sampleNow ("\x7bold\x7d".data) 1
    (by decide) ("ConnectTimeout".data) rfl

/-! ## C5 -/

/-- Counterexample for C5: the aggregator sorts by the ISO-8601 string,
which misorders instants when UTC offsets mix.  A run with a Garden
screening at 01:30 London wall clock on the autumn changeover night
(`+01:00`) and a Vue screening from the UTC instant 01:15Z (`+00:00`)
produces a snapshot whose two adjacent records denote the instants
1761441300 and 1761438600 seconds — the first strictly after the
second, so the array is not in ascending chronological order. -/
theorem C5_counterexample :
    ((aggregator_main sampleFoldOutcomes sampleNow).screenings.map fun r =>
      parseIsoInstant r.start_time) = [some 1761441300, some 1761438600] ∧
    (1761438600 : Int) < 1761441300 := by
  have hsnap : (aggregator_main sampleFoldOutcomes sampleNow).screenings =
      [serializeScreening sampleFoldScreeningGMT, serializeScreening sampleFoldScreeningBST] := by
    unfold aggregator_main
    dsimp only
    rw [show ((sampleFoldOutcomes.map fun o => run_scraper o.result).flatten.map
        serializeScreening) =
      [serializeScreening sampleFoldScreeningBST, serializeScreening sampleFoldScreeningGMT]
      from rfl]
    rw [mergeSort_pair]
    rw [if_neg (by decide)]
  rw [hsnap]
  constructor
  · decide
  · decide

/-- C5 as amended: the snapshot's screenings array is sorted ascending by
the ISO-8601 `start_time` string (Python's sort key).  This coincides
with chronological order whenever all records carry the same UTC offset,
but not across mixed offsets (see the counterexample). -/
theorem C5_amended (outcomes : List ScraperOutcome) (now : PyDateTime) :
    (aggregator_main outcomes now).screenings.Pairwise fun a b =>
      strLe a.start_time b.start_time = true := by
  unfold aggregator_main
  dsimp only
  apply List.sorted_mergeSort
  · exact fun a b c hab hbc => strLe_trans _ _ _ hab hbc
  · exact fun a b => strLe_total _ _

/-! ## C6 helper lemmas -/

/-- Reading `cinema_id` out of a serialized screening object. -/
theorem jGet_srec_cinema_id (r : SRec) :
    jGet (srecToJson r) ("cinema_id".data) = some (.str r.cinema_id) := by rfl

/-- Reading `start_time` out of a serialized screening object. -/
theorem jGet_srec_start_time (r : SRec) :
    jGet (srecToJson r) ("start_time".data) = some (.str r.start_time) := by rfl

/-- For a ten-character pattern, `startswith` on an `isoformat` string is
exactly equality with the rendered date component (the first ten
characters are `YYYY-MM-DD` and the eleventh is `T`). -/
theorem prefix_isoformat_iff (dt : PyDateTime) {p : Str} (hlen : p.length = 10) :
    p.isPrefixOf (isoformat dt) = true ↔ dateStrOf dt = p := by
  have hlen2 : p.length = (isoDate dt).length := by
    rw [hlen]; simp [isoDate, four, two]
  constructor
  · intro h
    exact (eq_left_of_isPrefixOf_append hlen2 h).symm
  · intro h
    rw [List.isPrefixOf_iff_prefix]
    exact ⟨'T' :: isoTime dt ++ isoOffset dt.tz, by rw [← h]; rfl⟩

/-- The date filter on a serialized screening tests equality of the
London-civil date component with the parameter. -/
theorem prefix_isoformat_decide (dt : PyDateTime) {p : Str} (hlen : p.length = 10) :
    p.isPrefixOf (isoformat dt) = decide (dateStrOf dt = p) := by
  cases hb : p.isPrefixOf (isoformat dt)
  · symm
    rw [decide_eq_false_iff_not]
    intro he
    have := (prefix_isoformat_iff dt hlen).mpr he
    rw [hb] at this
    cases this
  · symm
    rw [decide_eq_true_iff]
    exact (prefix_isoformat_iff dt hlen).mp hb

/-! ## C6 -/

/-- C6: with a snapshot built from screenings `xs`, a `date` filter of
the `YYYY-MM-DD` shape (ten characters) returns exactly the serialized
records whose `start_time` date component — the civil date the pipeline
normalizes to Europe/London — equals the requested date; adding a
`cinema` filter composes by conjunction, and the reported `total` is the
length of the returned list. -/
theorem C6_date_filter_exact (xs : List Screening) (c dstr : Str) (gen : Json)
    (hc : c ≠ []) (hdlen : dstr.length = 10) :
    (api_filter_screenings
        (.obj [("screenings".data, .arr (xs.map fun s => srecToJson (serializeScreening s))),
               ("generated_at".data, gen)]) (some c) (some dstr)).screenings =
      (xs.filter fun s => s.cinema_id = c ∧ dateStrOf s.start_time = dstr).map
        (fun s => srecToJson (serializeScreening s)) ∧
    (api_filter_screenings
        (.obj [("screenings".data, .arr (xs.map fun s => srecToJson (serializeScreening s))),
               ("generated_at".data, gen)]) none (some dstr)).screenings =
      (xs.filter fun s => dateStrOf s.start_time = dstr).map
        (fun s => srecToJson (serializeScreening s)) ∧
    (api_filter_screenings
        (.obj [("screenings".data, .arr (xs.map fun s => srecToJson (serializeScreening s))),
               ("generated_at".data, gen)]) (some c) (some dstr)).total =
      (api_filter_screenings
        (.obj [("screenings".data, .arr (xs.map fun s => srecToJson (serializeScreening s))),
               ("generated_at".data, gen)]) (some c) (some dstr)).screenings.length := by
  have hdne : dstr ≠ [] := by intro h; rw [h] at hdlen; cases hdlen
  have htc : pyTruthy (some c) = true := by
    simp [pyTruthy, List.isEmpty_iff]; exact hc
  have htd : pyTruthy (some dstr) = true := by
    simp [pyTruthy, List.isEmpty_iff]; exact hdne
  have hdatP : ∀ s : Screening,
      (dstr.isPrefixOf
        (match jGet (srecToJson (serializeScreening s)) ("start_time".data) with
         | some (.str t) => t
         | _ => [])) = decide (dateStrOf s.start_time = dstr) := by
    intro s
    rw [jGet_srec_start_time]
    exact prefix_isoformat_decide s.start_time hdlen
  have hcinP : ∀ s : Screening,
      (match jGet (srecToJson (serializeScreening s)) ("cinema_id".data) with
       | some (.str t) => decide (t = c)
       | _ => false) = decide (s.cinema_id = c) := by
    intro s
    rw [jGet_srec_cinema_id]
    rfl
  refine ⟨?_, ?_, rfl⟩
  · unfold api_filter_screenings
    simp only [htc, htd, if_true]
    rw [show jGet (Json.obj
        [("screenings".data, .arr (xs.map fun s => srecToJson (serializeScreening s))),
         ("generated_at".data, gen)]) ("screenings".data) =
      some (.arr (xs.map fun s => srecToJson (serializeScreening s))) from rfl]
    dsimp only
    simp only [Option.getD_some]
    rw [List.filter_map, List.filter_map, List.filter_filter]
    apply congrArg
    apply List.filter_congr
    intro s _
    simp only [Function.comp]
    rw [hdatP s, hcinP s, Bool.decide_and, Bool.and_comm]
  · unfold api_filter_screenings
    simp only [htd, if_true]
    rw [show pyTruthy none = false from rfl]
    simp only [Bool.false_eq_true, if_false]
    rw [show jGet (Json.obj
        [("screenings".data, .arr (xs.map fun s => srecToJson (serializeScreening s))),
         ("generated_at".data, gen)]) ("screenings".data) =
      some (.arr (xs.map fun s => srecToJson (serializeScreening s))) from rfl]
    dsimp only
    simp only [Option.getD_some]
    rw [List.filter_map]
    apply congrArg
    apply List.filter_congr
    intro s _
    simp only [Function.comp]
    rw [hdatP s]

/-- Witness for C6: the spec's boundary scenario — screenings at 00:05
and 23:55 London time on 2025-12-26 and one at 00:05 on 2025-12-27 —
queried for `2025-12-26` with and without the `rio` cinema filter. -/
theorem C6_witness :
    (api_filter_screenings
        (.obj [("screenings".data,
                .arr (sampleBoundaryScreenings.map fun s => srecToJson (serializeScreening s))),
               ("generated_at".data, .null)]) (some ("rio".data))
        (some ("2025-12-26".data))).screenings =
      (sampleBoundaryScreenings.filter fun s =>
        s.cinema_id = "rio".data ∧ dateStrOf s.start_time = "2025-12-26".data).map
        (fun s => srecToJson (serializeScreening s)) ∧
    (api_filter_screenings
        (.obj [("screenings".data,
                .arr (sampleBoundaryScreenings.map fun s => srecToJson (serializeScreening s))),
               ("generated_at".data, .null)]) none
        (some ("2025-12-26".data))).screenings =
      (sampleBoundaryScreenings.filter fun s =>
        dateStrOf s.start_time = "2025-12-26".data).map
        (fun s => srecToJson (serializeScreening s)) ∧
    (api_filter_screenings
        (.obj [("screenings".data,
                .arr (sampleBoundaryScreenings.map fun s => srecToJson (serializeScreening s))),
               ("generated_at".data, .null)]) (some ("rio".data))
        (some ("2025-12-26".data))).total =
      (api_filter_screenings
        (.obj [("screenings".data,
                .arr (sampleBoundaryScreenings.map fun s => srecToJson (serializeScreening s))),
               ("generated_at".data, .null)]) (some ("rio".data))
        (some ("2025-12-26".data))).screenings.length :=
  C6_date_filter_exact sampleBoundaryScreenings ("rio".data) ("2025-12-26".data) .null
    (by decide) (by decide)

/-! ## C9 helper lemmas -/

/-- One step of the net brace count. -/
theorem braceDelta_cons (c : Char) (t : Str) :
    braceDelta (c :: t) =
      (if c = '{' then 1 else if c = '}' then -1 else 0) + braceDelta t := by
  unfold braceDelta
  by_cases h1 : c = '{' <;> by_cases h2 : c = '}' <;>
    simp [List.count_cons, h1, h2] <;> omega

/-- The imperative depth scan of `_extract_events_json` stops exactly at
the first position that closes the region: if position `n` holds a `}`
at which the accumulated depth `d` plus the net brace count reaches
zero, and no earlier position does, the loop reports length `p + n + 1`
(`p` is the enumeration offset). -/
theorem braceScanLen_eq_of_minimal :
    ∀ (l : Str) (d : Int) (p n : Nat),
      (l[n]? = some '}' ∧ d + braceDelta (l.take (n + 1)) = 0) →
      (∀ k < n, ¬ (l[k]? = some '}' ∧ d + braceDelta (l.take (k + 1)) = 0)) →
      braceScanLen l d p = some (p + n + 1) := by
  intro l
  induction l with
  | nil => intro d p n h _; cases h.1
  | cons c rest ih =>
    intro d p n h hmin
    unfold braceScanLen
    by_cases h1 : c = '{'
    · rw [if_pos h1]
      cases n with
      | zero =>
        have := h.1
        simp only [List.getElem?_cons_zero, Option.some.injEq] at this
        exact absurd (this.symm.trans h1) (by decide)
      | succ n' =>
        have hdelta : (d + 1) + braceDelta (rest.take (n' + 1)) = 0 := by
          have := h.2
          rw [List.take_succ_cons, braceDelta_cons, if_pos h1] at this
          omega
        have hget : rest[n']? = some '}' := by
          have := h.1
          simpa using this
        have hstep := ih (d + 1) (p + 1) n' ⟨hget, hdelta⟩ ?_
        · rw [hstep]
          congr 1
          omega
        · intro k hk hbad
          refine hmin (k + 1) (by omega) ⟨by simpa using hbad.1, ?_⟩
          rw [List.take_succ_cons, braceDelta_cons, if_pos h1]
          omega
    · by_cases h2 : c = '}'
      · rw [if_neg h1, if_pos h2]
        cases n with
        | zero =>
          have hd : d - 1 = 0 := by
            have := h.2
            rw [List.take_succ_cons, List.take_zero, braceDelta_cons,
              if_neg h1, if_pos h2] at this
            unfold braceDelta at this
            simp at this
            omega
          rw [if_pos hd]
        | succ n' =>
          have hd : ¬ d - 1 = 0 := by
            intro hd
            refine hmin 0 (by omega) ⟨by simp [h2], ?_⟩
            rw [List.take_succ_cons, List.take_zero, braceDelta_cons, if_neg h1, if_pos h2]
            unfold braceDelta
            simp
            omega
          rw [if_neg hd]
          have hdelta : (d - 1) + braceDelta (rest.take (n' + 1)) = 0 := by
            have := h.2
            rw [List.take_succ_cons, braceDelta_cons, if_neg h1, if_pos h2] at this
            omega
          have hget : rest[n']? = some '}' := by
            have := h.1
            simpa using this
          have hstep := ih (d - 1) (p + 1) n' ⟨hget, hdelta⟩ ?_
          · rw [hstep]
            congr 1
            omega
          · intro k hk hbad
            refine hmin (k + 1) (by omega) ⟨by simpa using hbad.1, ?_⟩
            rw [List.take_succ_cons, braceDelta_cons, if_neg h1, if_pos h2]
            omega
      · rw [if_neg h1, if_neg h2]
        cases n with
        | zero =>
          have := h.1
          simp only [List.getElem?_cons_zero, Option.some.injEq] at this
          exact absurd this h2
        | succ n' =>
          have hdelta : d + braceDelta (rest.take (n' + 1)) = 0 := by
            have := h.2
            rw [List.take_succ_cons, braceDelta_cons, if_neg h1, if_neg h2] at this
            omega
          have hget : rest[n']? = some '}' := by
            have := h.1
            simpa using this
          have hstep := ih d (p + 1) n' ⟨hget, hdelta⟩ ?_
          · rw [hstep]
            congr 1
            omega
          · intro k hk hbad
            refine hmin (k + 1) (by omega) ⟨by simpa using hbad.1, ?_⟩
            rw [List.take_succ_cons, braceDelta_cons, if_neg h1, if_neg h2]
            omega

/-! ## C9 -/

/-- C9: the embedded-JSON extraction returns `None` when the marker
`var Events` is absent or no opening brace follows it; otherwise, with
the first brace at `b` and `n` the first position (counting from `b`)
whose `}` returns the brace depth to zero, it takes exactly the
substring up to and including that position and returns its
`json.loads` value — which is `None` exactly when that substring is not
valid JSON. -/
theorem C9_embedded_json_extraction (html : Str) :
    (strFind html ("var Events".data) = none → extract_events_json html = none) ∧
    (∀ i, strFind html ("var Events".data) = some i →
      strFindCharFrom html '{' i = none → extract_events_json html = none) ∧
    (∀ i b n, strFind html ("var Events".data) = some i →
      strFindCharFrom html '{' i = some b →
      closesAt (html.drop b) n →
      (∀ k < n, ¬ closesAt (html.drop b) k) →
      extract_events_json html = jsonLoads? ((html.drop b).take (n + 1))) := by
  refine ⟨?_, ?_, ?_⟩
  · intro h
    unfold extract_events_json
    rw [h]
  · intro i h1 h2
    unfold extract_events_json
    rw [h1]
    dsimp only
    rw [h2]
  · intro i b n h1 h2 hcl hmin
    unfold extract_events_json
    rw [h1]
    dsimp only
    rw [h2]
    dsimp only
    rw [braceScanLen_eq_of_minimal (html.drop b) 0 0 n
      ⟨hcl.1, by have := hcl.2; omega⟩
      (fun k hk hbad => hmin k hk ⟨hbad.1, by have := hbad.2; omega⟩)]
    simp

/-- Witness for C9: a concrete page embedding `var Events = {"Events": []}`
(marker at index 3, first brace at 16, depth returning to zero 13
characters later), whose extraction is exactly the parse of that slice. -/
theorem C9_witness :
    extract_events_json ("xx var Events = \x7b\x22Events\x22: []\x7d;".data) =
      jsonLoads? ((("xx var Events = \x7b\x22Events\x22: []\x7d;".data).drop 16).take 14) :=
  (C9_embedded_json_extraction _).2.2 3 16 13 (by decide) (by decide) (by decide)
    (by decide)

end Cinema
